import Mathlib

/-!
Verification development for the undefined-spec-detector analysis pipeline.

The Python source is shallowly embedded: every definition below mirrors a
function or constant of the repository (`src/usd/...`), with
- text modelled as `String` / `List Char` and Python's `in` (substring test)
  as `occursIn`;
- floating point scores modelled as exact rationals `ℚ`;
- the two fresh-uuid id generators modelled as an explicit id supply
  `gen : Nat → String` threaded through a draw counter (each call of the
  Python `_generate_id` is one draw);
- external data (the YAML checklist templates) modelled as a parameter
  `templates : String → List ChecklistItem` keyed by the action-type name,
  a missing template being the empty list;
- wall-clock timestamps (`datetime.now()`) and the freshly drawn document id
  of `parse` are parameters / omitted: no analysis logic reads them.
-/

namespace Usd

/-! ## Text utilities (Python `str` operations) -/

/-- Whitespace characters recognised by the embedding of Python `str.strip`
(ASCII whitespace plus the ideographic space). -/
def isSpaceChar (c : Char) : Bool :=
  c == ' ' || c == '\t' || c == '\n' || c == '\r' || c == '\x0b' || c == '\x0c' || c == '　'

/-- The list `n` is an initial segment of `h`. -/
def leadsWith : List Char → List Char → Bool
  | [], _ => true
  | _ :: _, [] => false
  | a :: as, b :: bs => a == b && leadsWith as bs

/-- The list `n` occurs contiguously inside `h`: Python's `n in h` on strings. -/
def hasSubList (n : List Char) : List Char → Bool
  | [] => leadsWith n []
  | b :: bs => leadsWith n (b :: bs) || hasSubList n bs

/-- Python `needle in hay` for strings. -/
def occursIn (needle hay : String) : Bool :=
  hasSubList needle.data hay.data

/-- Index of the first occurrence of `n` in a list (Python `str.find`, only
used where the occurrence exists). -/
def firstIndexOf (n : List Char) : List Char → Nat
  | [] => 0
  | b :: bs => if leadsWith n (b :: bs) then 0 else firstIndexOf n bs + 1

/-- Python `str.split(sep)` for a one-character separator. -/
def splitOnChar (c : Char) : List Char → List (List Char)
  | [] => [[]]
  | a :: as =>
    match splitOnChar c as with
    | [] => [[]]
    | g :: gs => if a == c then [] :: g :: gs else (a :: g) :: gs

/-- Python `str.strip` on a character list. -/
def stripChars (l : List Char) : List Char :=
  ((l.dropWhile isSpaceChar).reverse.dropWhile isSpaceChar).reverse

/-- Python `str.strip` on a string. -/
def strip (s : String) : String := ⟨stripChars s.data⟩

/-- Python slicing `s[:k]`. -/
def strTake (s : String) (k : Nat) : String := ⟨s.data.take k⟩

/-- Insertion of the text `k` into `t` at character position `i`
(`t[:i] + k + t[i:]`): the operation quantified over in the monotonicity
claim about "inserting additional occurrences of a keyword". -/
def insertAt (t k : String) (i : Nat) : String :=
  ⟨t.data.take i ++ k.data ++ t.data.drop i⟩

/-- Leftmost decomposition `s = g ++ lit ++ rest` with `g` nonempty: the
behaviour of one lazy group `(.+?)` followed by the literal `lit` under
Python `re.search`. -/
def lazySplit (lit : List Char) : List Char → Option (List Char × List Char)
  | [] => none
  | a :: as =>
    if leadsWith lit as then some ([a], as.drop lit.length)
    else
      match lazySplit lit as with
      | none => none
      | some (g, rest) => some (a :: g, rest)

/-- Lazy matching of a pattern `(.+?)lit₁(.+?)lit₂…` against `s`, returning
the captured groups.  Python's backtracking over later occurrences of a
literal is dropped: if the tail pattern fails on the suffix after the first
occurrence it also fails after every later (shorter) suffix, so the first
occurrence is always the right one. -/
def lazyGroups : List (List Char) → List Char → Option (List (List Char))
  | [], _ => some []
  | lit :: lits, s =>
    match lazySplit lit s with
    | none => none
    | some (g, rest) =>
      match lazyGroups lits rest with
      | none => none
      | some gs => some (g :: gs)

/-! ## Data model (`src/usd/schema.py`) -/

/-- Priority levels of `schema.Priority`. -/
inductive Priority
  | low
  | medium
  | high
  | critical
deriving DecidableEq, Repr

/-- Entity mention, `schema.Mention`. -/
structure Mention where
  sentence_id : String
  text : String
  position : Nat
deriving DecidableEq, Repr

/-- Entity attribute, `schema.Attribute` (the optional `definition` payload
is never produced nor read by the core and is omitted). -/
structure Attribute where
  name : String
  mentioned : Bool
  defined : Bool
deriving DecidableEq, Repr

/-- Entity, `schema.Entity`. -/
structure Entity where
  id : String
  name : String
  type : String
  attributes : List Attribute
  mentions : List Mention
  definition_status : String
  ambiguity_score : ℚ
deriving DecidableEq, Repr

/-- Condition, `schema.Condition`. -/
structure Condition where
  description : String
  type : String
  defined : Bool
  ambiguous : Bool
  entities : List String
deriving DecidableEq, Repr

/-- Error-handling flag pair, `schema.ErrorHandling`. -/
structure ErrorHandling where
  mentioned : Bool
  defined : Bool
deriving DecidableEq, Repr

/-- Action, `schema.Action` (the defaulted `postconditions`/`timing` fields
are never produced nor read by the core and are omitted). -/
structure Action where
  id : String
  verb : String
  subject : String
  object : Option String
  preconditions : List Condition
  error_handling : Option ErrorHandling
deriving DecidableEq, Repr

/-- Sentence, `schema.Sentence`. -/
structure Sentence where
  id : String
  text : String
  line_number : Nat
  start_char : Nat
  end_char : Nat
  type : String
  importance : Priority
deriving DecidableEq, Repr

/-- Requirement, `schema.Requirement` (defaulted related-id lists omitted). -/
structure Requirement where
  id : String
  text : String
  type : String
  completeness_score : ℚ
  ambiguity_score : ℚ
  missing_elements : List String
deriving DecidableEq, Repr

/-- Parsing statistics, `schema.Statistics`. -/
structure Statistics where
  total_sentences : Nat
  total_entities : Nat
  total_relationships : Nat
  total_actions : Nat
  avg_completeness_score : ℚ
  avg_ambiguity_score : ℚ
deriving DecidableEq, Repr

/-- Parse result, `schema.ParsedRequirement` (timestamp, parser version and
metadata omitted; the defaulted `relationships`/`constraints` lists are never
populated by the parser). -/
structure ParsedRequirement where
  document_id : String
  original_content : String
  sentences : List Sentence
  entities : List Entity
  actions : List Action
  requirements : List Requirement
  statistics : Statistics
deriving DecidableEq, Repr

/-- Generated question, `schema.Question` (`suggested_answers=None` passed by
the extractor is collapsed to the empty list here; no claim reads it). -/
structure Question where
  text : String
  type : String
  suggested_answers : List String
deriving DecidableEq, Repr

/-- Detection provenance, `schema.DetectionInfo`. -/
structure DetectionInfo where
  method : String
  confidence : ℚ
  reasoning : String
deriving DecidableEq, Repr

/-- The closed set of detection-method labels of `schema.DetectionInfo`. -/
def detectionMethods : List String :=
  ["pattern_matching", "semantic_analysis", "rule_based", "ml_model", "template_driven"]

/-- Finding context, `schema.Context`. -/
structure Context where
  source_text : String
  surrounding_text : String
  sentence_id : Option String
  line_number : Nat
deriving DecidableEq, Repr

/-- Criticality metadata attached to checklist findings
(`criticality_info` dict built in `extractor._convert_to_undefined_element`). -/
structure CriticalityInfo where
  level : String
  change_cost : String
  timing : String
  who_to_ask : String
  default : Option String
deriving DecidableEq, Repr

/-- Finding, `schema.UndefinedElement` (defaulted `cross_references` omitted). -/
structure UndefinedElement where
  id : String
  category : String
  subcategory : String
  related_entity : Option String
  related_action : Option String
  related_requirement : Option String
  title : String
  description : String
  questions : List Question
  detection : DetectionInfo
  context : Context
  estimated_severity : Priority
  criticality_info : Option CriticalityInfo
deriving DecidableEq, Repr

/-! ## Requirement parser (`modules/requirement_parser/parser.py`) -/

/-- Python `f"{n:03d}"`. -/
def pad3 (n : Nat) : String :=
  if n < 10 then "00" ++ Nat.repr n
  else if n < 100 then "0" ++ Nat.repr n
  else Nat.repr n

/-- Sentence-type cues of `RequirementParser._classify_sentence_type`. -/
def classifySentenceType (text : String) : String :=
  if ["できる", "可能", "する"].any (fun w => occursIn w text) then "requirement"
  else if ["とする", "こと", "必要"].any (fun w => occursIn w text) then "constraint"
  else if ["例えば", "など"].any (fun w => occursIn w text) then "example"
  else "explanation"

/-- Inner loop of `_extract_sentences`: sentence units of one line, threading
the character position and the sentence counter. -/
def sentenceRow (lineNum : Nat) : List (List Char) → Nat → Nat → List Sentence × Nat × Nat
  | [], charPos, count => ([], charPos, count)
  | sub :: subs, charPos, count =>
    let text : String := ⟨sub⟩
    let s : Sentence :=
      { id := "S-" ++ pad3 (count + 1), text := text, line_number := lineNum,
        start_char := charPos, end_char := charPos + sub.length,
        type := classifySentenceType text, importance := Priority.medium }
    let (rest, cp, ct) := sentenceRow lineNum subs (charPos + sub.length + 1) (count + 1)
    (s :: rest, cp, ct)

/-- Line loop of `RequirementParser._extract_sentences`: blank and `#` lines
are skipped (their stripped length still advances the character position, as
in the source), other lines are split on `。` into stripped nonempty units. -/
def buildSentences : List (Nat × String) → Nat → Nat → List Sentence
  | [], _, _ => []
  | (lineNum, line) :: rest, charPos, count =>
    let stripped := strip line
    if stripped == "" || leadsWith ['#'] stripped.data then
      buildSentences rest (charPos + stripped.length + 1) count
    else
      let subs := ((splitOnChar '。' stripped.data).map stripChars).filter (fun l => l ≠ [])
      let (row, cp, ct) := sentenceRow lineNum subs charPos count
      row ++ buildSentences rest cp ct

/-- `RequirementParser._extract_sentences`. -/
def extractSentences (content : String) : List Sentence :=
  buildSentences (((splitOnChar '\n' content.data).map (fun l => (⟨l⟩ : String))).enumFrom 1) 0 0

/-- Noun vocabulary of `RequirementParser._extract_entities`. -/
def commonNouns : List String :=
  ["ユーザー", "ユーザ", "利用者", "商品", "製品", "アイテム",
   "カート", "データ", "情報", "価格", "金額", "在庫",
   "注文", "オーダー", "決済", "購入", "システム", "サービス",
   "パスワード", "メール", "アカウント", "ログイン"]

/-- `RequirementParser._infer_entity_type`. -/
def inferEntityType (noun : String) : String :=
  if ["ユーザー", "ユーザ", "利用者", "管理者", "オペレーター"].contains noun then "actor"
  else if ["商品", "製品", "アイテム", "カート", "注文"].contains noun then "object"
  else if ["データ", "情報", "価格", "金額", "在庫"].contains noun then "data"
  else if ["システム", "サービス", "アプリ"].contains noun then "system"
  else "object"

/-- `RequirementParser._extract_entities`: one entity per vocabulary noun
occurring in the document, numbered in vocabulary order, with a mention per
sentence containing the noun. -/
def extractEntities (content : String) (sentences : List Sentence) : List Entity :=
  ((commonNouns.filter (fun noun => occursIn noun content)).enumFrom 1).map (fun p =>
    { id := "E-" ++ pad3 p.1, name := p.2, type := inferEntityType p.2,
      attributes := [],
      mentions := (sentences.filter (fun s => occursIn p.2 s.text)).map (fun s =>
        { sentence_id := s.id, text := p.2, position := firstIndexOf p.2.data s.text.data }),
      definition_status := "undefined", ambiguity_score := (7 : ℚ) / 10 })

/-- `RequirementParser._extract_verb`: first verb of the fixed vocabulary
occurring in the text, else the sentinel `処理`. -/
def extractVerb (text : String) : String :=
  (["追加", "削除", "変更", "確認", "表示", "登録", "更新", "取得", "送信", "実行"].find?
    (fun v => occursIn v text)).getD "処理"

/-- `RequirementParser._find_entity`: first entity whose name occurs in the
capture text, else `none` (the caller substitutes the `UNKNOWN` sentinel). -/
def findEntity (text : String) (entities : List Entity) : Option String :=
  (entities.find? (fun e => occursIn e.name text)).map (fun e => e.id)

/-- `RequirementParser._extract_conditions`: one condition per clause marker
(`場合` / `とき` / `際`) matched by the lazy pattern `(.+?)marker`, always
`ambiguous`, never `defined`. -/
def extractConditions (text : String) : List Condition :=
  ["場合", "とき", "際"].filterMap (fun pat =>
    match lazySplit pat.data text.data with
    | none => none
    | some (g, _) =>
      some { description := ⟨stripChars g⟩, type := "precondition",
             defined := false, ambiguous := true, entities := [] })

/-- One sentence of `RequirementParser._extract_actions`: the
subject–object–verb pattern `(.+?)は(.+?)を(.+?)できる` is tried first, then
the object–verb pattern `(.+?)を(.+?)する`; the first match wins. -/
def actionFromSentence (entities : List Entity) (counter : Nat) (s : Sentence) : Option Action :=
  let text := s.text
  let mk : List Char → List Char → Option Action := fun g1 g2 =>
    some { id := "A-" ++ pad3 counter, verb := extractVerb text,
           subject := (findEntity ⟨g1⟩ entities).getD "UNKNOWN",
           object := findEntity ⟨g2⟩ entities,
           preconditions := extractConditions text,
           error_handling := some
             { mentioned := ["エラー", "失敗", "できない", "不可"].any (fun w => occursIn w text),
               defined := false } }
  match lazyGroups ["は".data, "を".data, "できる".data] text.data with
  | some (g1 :: g2 :: _) => mk g1 g2
  | _ =>
    match lazyGroups ["を".data, "する".data] text.data with
    | some (g1 :: g2 :: _) => mk g1 g2
    | _ => none

/-- Sentence loop of `_extract_actions` with the action counter. -/
def buildActions (entities : List Entity) : List Sentence → Nat → List Action
  | [], _ => []
  | s :: ss, counter =>
    match actionFromSentence entities (counter + 1) s with
    | some a => a :: buildActions entities ss (counter + 1)
    | none => buildActions entities ss counter

/-- `RequirementParser._extract_actions` (the `content` argument is unused in
the source as well). -/
def extractActions (content : String) (sentences : List Sentence) (entities : List Entity) :
    List Action :=
  buildActions entities sentences 0

/-- `RequirementParser._calculate_completeness`: four additive checks
(+0.3 entity, +0.3 verb, +0.1 condition, +0.2 error language), clipped at 1. -/
def calculateCompleteness (text : String) (entities : List Entity) (actions : List Action) : ℚ :=
  let s1 : ℚ := if entities.any (fun e => occursIn e.name text) then 3 / 10 else 0
  let s2 : ℚ := if ["できる", "する", "表示", "追加"].any (fun v => occursIn v text) then 3 / 10 else 0
  let s3 : ℚ := if occursIn "場合" text || occursIn "とき" text then 1 / 10 else 0
  let s4 : ℚ := if ["エラー", "失敗", "できない"].any (fun w => occursIn w text) then 2 / 10 else 0
  min (s1 + s2 + s3 + s4) 1

/-- Vague adjectives of `RequirementParser._calculate_ambiguity`. -/
def vagueAdjectives : List String :=
  ["速い", "遅い", "高速", "大きい", "小さい", "多い", "少ない", "適切", "十分"]

/-- Vague adverbs of `RequirementParser._calculate_ambiguity`. -/
def vagueAdverbs : List String :=
  ["すぐに", "速やかに", "適宜", "随時", "定期的"]

/-- `RequirementParser._calculate_ambiguity`: +0.2 per vague adjective hit,
+0.2 per vague adverb hit, +0.3 for a condition clause without any comparison
token, clipped at 1. -/
def calculateAmbiguity (text : String) : ℚ :=
  let s1 : ℚ := ((vagueAdjectives.filter (fun a => occursIn a text)).length : ℚ) * (2 / 10)
  let s2 : ℚ := ((vagueAdverbs.filter (fun a => occursIn a text)).length : ℚ) * (2 / 10)
  let s3 : ℚ :=
    if (occursIn "場合" text || occursIn "とき" text)
        && !(["=", ">", "<", "以上", "以下"].any (fun w => occursIn w text)) then 3 / 10 else 0
  min (s1 + s2 + s3) 1

/-- `RequirementParser._identify_missing_elements`. -/
def identifyMissingElements (text : String) : List String :=
  (if occursIn "できる" text && !occursIn "できない" text && !occursIn "エラー" text then
    ["エラー時の挙動"] else []) ++
  (if ["追加", "登録", "保存"].any (fun w => occursIn w text) && !occursIn "削除" text then
    ["削除機能の有無"] else []) ++
  (if ["データ", "情報", "値"].any (fun w => occursIn w text)
      && !(["型", "フォーマット", "形式"].any (fun w => occursIn w text)) then
    ["データ型・形式"] else [])

/-- `RequirementParser._evaluate_requirements`: one requirement per sentence
of type `requirement`. -/
def evaluateRequirements (sentences : List Sentence) (entities : List Entity)
    (actions : List Action) : List Requirement :=
  (((sentences.filter (fun s => s.type == "requirement")).enumFrom 1)).map (fun p =>
    { id := "REQ-" ++ pad3 p.1, text := p.2.text, type := "functional",
      completeness_score := calculateCompleteness p.2.text entities actions,
      ambiguity_score := calculateAmbiguity p.2.text,
      missing_elements := identifyMissingElements p.2.text })

/-- Python `round(x, 2)` (round-half-to-even), on exact rationals. -/
def round2 (q : ℚ) : ℚ :=
  let y := q * 100
  let n := Rat.floor y
  let r : Int :=
    if y - n < 1 / 2 then n
    else if y - n > 1 / 2 then n + 1
    else if n % 2 = 0 then n else n + 1
  (r : ℚ) / 100

/-- `RequirementParser._calculate_statistics`. -/
def calculateStatistics (sentences : List Sentence) (entities : List Entity)
    (actions : List Action) (requirements : List Requirement) : Statistics :=
  let k := requirements.length
  let avgC : ℚ := if k = 0 then 0 else (requirements.map (fun r => r.completeness_score)).sum / k
  let avgA : ℚ := if k = 0 then 0 else (requirements.map (fun r => r.ambiguity_score)).sum / k
  { total_sentences := sentences.length, total_entities := entities.length,
    total_relationships := 0, total_actions := actions.length,
    avg_completeness_score := round2 avgC, avg_ambiguity_score := round2 avgA }

/-- `RequirementParser.parse` (the freshly drawn document id is a parameter,
timestamps and metadata carry no analysis content and are omitted). -/
def parse (docId : String) (content : String) : ParsedRequirement :=
  let sentences := extractSentences content
  let entities := extractEntities content sentences
  let actions := extractActions content sentences entities
  let requirements := evaluateRequirements sentences entities actions
  { document_id := docId, original_content := content, sentences := sentences,
    entities := entities, actions := actions, requirements := requirements,
    statistics := calculateStatistics sentences entities actions requirements }

/-! ## Action-type classifier (`modules/action_classifier/classifier.py`) -/

/-- Operation categories, `classifier.ActionType`, in declaration order. -/
inductive ActionType
  | DELETE
  | CREATE
  | UPDATE
  | DISPLAY
  | AUTHENTICATION
  | EXTERNAL_API
  | DATA_MIGRATION
  | BATCH_PROCESS
  | SEARCH
  | NOTIFICATION
  | IMPORT_EXPORT
  | UNKNOWN
deriving DecidableEq, Repr

/-- Python enum member name (`ActionType.X.name`), the key used to look up
checklist templates. -/
def atName : ActionType → String
  | .DELETE => "DELETE"
  | .CREATE => "CREATE"
  | .UPDATE => "UPDATE"
  | .DISPLAY => "DISPLAY"
  | .AUTHENTICATION => "AUTHENTICATION"
  | .EXTERNAL_API => "EXTERNAL_API"
  | .DATA_MIGRATION => "DATA_MIGRATION"
  | .BATCH_PROCESS => "BATCH_PROCESS"
  | .SEARCH => "SEARCH"
  | .NOTIFICATION => "NOTIFICATION"
  | .IMPORT_EXPORT => "IMPORT_EXPORT"
  | .UNKNOWN => "UNKNOWN"

/-- Python enum member value (`ActionType.X.value`). -/
def atValue : ActionType → String
  | .DELETE => "削除系"
  | .CREATE => "作成系"
  | .UPDATE => "更新系"
  | .DISPLAY => "表示系"
  | .AUTHENTICATION => "認証系"
  | .EXTERNAL_API => "外部連携系"
  | .DATA_MIGRATION => "データ移行系"
  | .BATCH_PROCESS => "バッチ処理系"
  | .SEARCH => "検索系"
  | .NOTIFICATION => "通知系"
  | .IMPORT_EXPORT => "インポート/エクスポート系"
  | .UNKNOWN => "不明"

/-- One entry of the `ACTION_PATTERNS` table. -/
structure CategoryPattern where
  keywords : List String
  critical_concerns : List String
  severity_multiplier : ℚ
  base_severity : String
deriving DecidableEq, Repr

/-- The fixed `ACTION_PATTERNS` table, in source declaration order (dict
insertion order, which Python preserves). -/
def ACTION_PATTERNS : List (ActionType × CategoryPattern) :=
  [(ActionType.DELETE,
    { keywords := ["削除", "消す", "除去", "クリア", "消去", "廃棄", "破棄"],
      critical_concerns := ["論理削除 vs 物理削除", "復元可能性", "カスケード削除の範囲", "削除権限", "削除ログ"],
      severity_multiplier := 3 / 2, base_severity := "HIGH" }),
   (ActionType.CREATE,
    { keywords := ["作成", "追加", "登録", "新規", "生成", "作る", "増やす"],
      critical_concerns := ["必須項目の定義", "バリデーション", "重複チェック", "初期値設定"],
      severity_multiplier := 1, base_severity := "MEDIUM" }),
   (ActionType.UPDATE,
    { keywords := ["更新", "変更", "修正", "編集", "書き換え", "直す"],
      critical_concerns := ["更新対象の特定方法", "部分更新 vs 全体更新", "更新権限", "更新履歴の記録"],
      severity_multiplier := 6 / 5, base_severity := "MEDIUM" }),
   (ActionType.DISPLAY,
    { keywords := ["表示", "見る", "確認", "一覧", "詳細", "閲覧", "ビュー", "画面"],
      critical_concerns := ["表示件数の上限", "ページネーション", "ソート順", "0件時の表示"],
      severity_multiplier := 7 / 10, base_severity := "LOW" }),
   (ActionType.AUTHENTICATION,
    { keywords := ["認証", "ログイン", "ログアウト", "サインイン", "パスワード", "トークン"],
      critical_concerns := ["認証方式（JWT, Session, etc）", "トークンの有効期限", "トークン保存場所", "セッション管理"],
      severity_multiplier := 9 / 5, base_severity := "CRITICAL" }),
   (ActionType.EXTERNAL_API,
    { keywords := ["API", "連携", "外部", "LINE", "Slack", "Twitter", "Google", "呼び出し"],
      critical_concerns := ["タイムアウト設定", "リトライ戦略", "認証情報の管理", "エラー時のフォールバック"],
      severity_multiplier := 7 / 5, base_severity := "HIGH" }),
   (ActionType.DATA_MIGRATION,
    { keywords := ["移行", "マイグレーション", "データ移動", "インポート", "変換"],
      critical_concerns := ["データ量の見積もり", "ロールバック方法", "バリデーション", "既存データの扱い"],
      severity_multiplier := 8 / 5, base_severity := "HIGH" }),
   (ActionType.BATCH_PROCESS,
    { keywords := ["バッチ", "定期", "一括", "夜間", "スケジュール"],
      critical_concerns := ["実行タイミング", "処理時間の見積もり", "エラー時の通知", "再実行の方法"],
      severity_multiplier := 13 / 10, base_severity := "MEDIUM" }),
   (ActionType.SEARCH,
    { keywords := ["検索", "探す", "フィルタ", "絞り込み", "サーチ"],
      critical_concerns := ["検索対象フィールド", "部分一致 vs 完全一致", "検索パフォーマンス", "0件時の表示"],
      severity_multiplier := 9 / 10, base_severity := "MEDIUM" }),
   (ActionType.NOTIFICATION,
    { keywords := ["通知", "メール", "アラート", "お知らせ", "送信"],
      critical_concerns := ["通知タイミング", "送信失敗時の処理", "通知の重複防止", "通知設定のON/OFF"],
      severity_multiplier := 11 / 10, base_severity := "MEDIUM" }),
   (ActionType.IMPORT_EXPORT,
    { keywords := ["エクスポート", "ダウンロード", "CSV", "Excel", "インポート", "アップロード"],
      critical_concerns := ["ファイル形式", "ファイルサイズ上限", "エラー行の扱い", "文字コード"],
      severity_multiplier := 6 / 5, base_severity := "MEDIUM" })]

/-- Classification result, `classifier.ClassificationResult`. -/
structure ClassificationResult where
  action_type : ActionType
  confidence : ℚ
  detected_entities : List String
  base_severity : String
  matched_keywords : List String
  context : String
deriving DecidableEq, Repr

/-- Distinct-keyword hit count of one category against the text
(the per-category `score` of `ActionTypeClassifier.classify`). -/
def votes (p : CategoryPattern) (t : String) : Nat :=
  (p.keywords.filter (fun k => occursIn k t)).length

/-- The categories retained in the `scores` dict: those with at least one
keyword hit, in declaration order. -/
def scoredPatterns (t : String) : List (ActionType × CategoryPattern) :=
  ACTION_PATTERNS.filter (fun ap => decide (0 < votes ap.2 t))

/-- Python `max(scores.items(), key=...)`: the first entry with the maximal
vote count (ties keep the earlier entry). -/
def pickBest (t : String) : List (ActionType × CategoryPattern) →
    Option (ActionType × CategoryPattern)
  | [] => none
  | x :: xs => some (xs.foldl (fun acc y => if votes y.2 t > votes acc.2 t then y else acc) x)

/-- Entity vocabulary of `ActionTypeClassifier._extract_entities` (duplicated
from the parser's vocabulary by design). -/
def classifierCommonEntities : List String :=
  ["ユーザー", "ユーザ", "商品", "カート", "注文", "決済",
   "アカウント", "プロフィール", "投稿", "コメント", "画像",
   "ファイル", "データ", "情報", "レコード", "アイテム"]

/-- `ActionTypeClassifier._extract_entities`. -/
def classifierExtractEntities (text : String) : List String :=
  classifierCommonEntities.filter (fun e => occursIn e text)

/-- `ActionTypeClassifier.classify`. -/
def classify (t : String) : ClassificationResult :=
  match pickBest t (scoredPatterns t) with
  | none =>
    { action_type := ActionType.UNKNOWN, confidence := 0,
      detected_entities := classifierExtractEntities t, base_severity := "LOW",
      matched_keywords := [], context := t }
  | some (a, p) =>
    { action_type := a, confidence := min ((votes p t : ℚ) / 3) 1,
      detected_entities := classifierExtractEntities t,
      base_severity := p.base_severity,
      matched_keywords := p.keywords.filter (fun k => occursIn k t), context := t }

/-- Vote count of a category looked up in `ACTION_PATTERNS` (0 for a
category without a table entry, in particular `UNKNOWN`). -/
def votesFor (a : ActionType) (t : String) : Nat :=
  match ACTION_PATTERNS.find? (fun ap => decide (ap.1 = a)) with
  | some ap => votes ap.2 t
  | none => 0

/-- Maximal vote count over the whole table. -/
def maxVotes (t : String) : Nat :=
  (ACTION_PATTERNS.map (fun ap => votes ap.2 t)).foldr max 0

/-- Modelled from the spec: "the category with the highest count wins; ties
are broken by table declaration order (first-declared wins)" — the first
table entry attaining the maximal vote count. -/
def specFirstMax (t : String) : Option ActionType :=
  (ACTION_PATTERNS.find? (fun ap => decide (votes ap.2 t = maxVotes t))).map (fun ap => ap.1)

/-! ## Criticality judge (`modules/criticality_judge/judge.py`) -/

/-- Criticality tiers, `judge.Criticality`. -/
inductive Criticality
  | MUST_DEFINE
  | SHOULD_CONFIRM
  | CAN_DECIDE_LATER
deriving DecidableEq, Repr

/-- Python enum member value of `judge.Criticality`. -/
def criticalityValue : Criticality → String
  | .MUST_DEFINE => "🔴 着手不可"
  | .SHOULD_CONFIRM => "🟡 要確認"
  | .CAN_DECIDE_LATER => "🟢 後決めOK"

/-- Affected-area flags of a checklist item (the `affects` mapping; an absent
key reads as `false` via `dict.get`). -/
structure Affects where
  data_model : Bool
  external_system : Bool
  security : Bool
deriving DecidableEq, Repr

/-- Option dict of a checklist item as authored in a template. -/
structure RawOption where
  value : Option String
  label : Option String
  pros : Option String
  cons : Option String
  implementation : Option String
  warning : Option String
deriving DecidableEq, Repr

/-- Checklist item as loaded from an external template: a string-keyed dict;
optional fields model absent keys. -/
structure ChecklistItem where
  id : Option String
  title : Option String
  category : Option String
  question : Option String
  question_template : Option String
  question_template_key : Option String
  options : List RawOption
  examples : List String
  criticality : Option String
  why_critical : Option String
  why_optional : Option String
  change_cost_if_later : Option String
  default_assumption : Option String
  detection_phase : Option String
  affects : Affects
deriving DecidableEq, Repr

/-- Judgement result, `judge.CriticalityResult`. -/
structure CriticalityResult where
  element_id : String
  question : String
  criticality : Criticality
  reason : String
  change_cost_if_later : String
  recommended_decision_timing : String
  default_assumption : Option String
  score : ℚ
  affects : Affects
deriving DecidableEq, Repr

/-- Context dict handed to the judge and the question generator by
`UndefinedExtractor._extract_from_checklist`; optional fields model the keys
that call site may omit. -/
structure GenContext where
  entity : Option String
  api_name : Option String
  related_entities : Option (List String)
  action_type : Option String
  original_text : Option String
deriving DecidableEq, Repr

/-- Block 1 of `CriticalityJudge._calculate_score`: affected-area bonuses. -/
def affectsScore (affects : Affects) : ℚ :=
  (if affects.data_model then 3 else 0)
    + (if affects.external_system then 2 else 0)
    + (if affects.security then 3 else 0)

/-- Block 2 of `CriticalityJudge._calculate_score`: change-cost magnitude
keywords, falling back to the low-cost +0.5. -/
def changeCostScore (cc : String) : ℚ :=
  if occursIn "200" cc || occursIn "300" cc then 3
  else if occursIn "100" cc then 5 / 2
  else if occursIn "50" cc || occursIn "40" cc then 2
  else if occursIn "20" cc || occursIn "30" cc then 3 / 2
  else if occursIn "10" cc then 1
  else 1 / 2

/-- Block 3 of `CriticalityJudge._calculate_score`: detection-phase bonus. -/
def phaseScore (phase : String) : ℚ :=
  if phase == "production" then 2
  else if phase == "testing" then 3 / 2
  else if phase == "design" then 1
  else 0

/-- Block 4 of `CriticalityJudge._calculate_score`: an explicit criticality
override forces a score floor. -/
def overrideFloor (cstr : String) (raw : ℚ) : ℚ :=
  if cstr == "MUST_DEFINE" then max raw 5
  else if cstr == "SHOULD_CONFIRM" then max raw 3
  else raw

/-- `CriticalityJudge._calculate_score`: blocks 1–4 in sequence, clipped at
10 (`action_type` and `context` are unused in the source as well). -/
def calculateScore (element : ChecklistItem) (actionType : String)
    (context : Option GenContext) : ℚ :=
  let raw := affectsScore element.affects
           + changeCostScore (element.change_cost_if_later.getD "")
           + phaseScore (element.detection_phase.getD "implementation")
  min (overrideFloor (element.criticality.getD "") raw) 10

/-- `CriticalityJudge._determine_criticality`: an explicit template override
wins outright, else the score thresholds 5.0 / 3.0 decide. -/
def determineCriticality (score : ℚ) (element : ChecklistItem) : Criticality :=
  let cstr := element.criticality.getD ""
  if cstr == "MUST_DEFINE" then .MUST_DEFINE
  else if cstr == "SHOULD_CONFIRM" then .SHOULD_CONFIRM
  else if cstr == "CAN_DECIDE_LATER" then .CAN_DECIDE_LATER
  else if 5 ≤ score then .MUST_DEFINE
  else if 3 ≤ score then .SHOULD_CONFIRM
  else .CAN_DECIDE_LATER

/-- `CriticalityJudge._determine_timing`. -/
def determineTiming : Criticality → String
  | .MUST_DEFINE => "実装開始前"
  | .SHOULD_CONFIRM => "設計完了前"
  | .CAN_DECIDE_LATER => "実装中"

/-- `CriticalityJudge.judge`. -/
def judge (element : ChecklistItem) (actionType : String)
    (context : Option GenContext) : CriticalityResult :=
  let score := calculateScore element actionType context
  let criticality := determineCriticality score element
  { element_id := element.id.getD "unknown",
    question := element.question.getD "",
    criticality := criticality,
    reason := element.why_critical.getD "",
    change_cost_if_later := element.change_cost_if_later.getD "不明",
    recommended_decision_timing := determineTiming criticality,
    default_assumption := element.default_assumption,
    score := score,
    affects := element.affects }

/-! ## Question generator (`modules/question_generator/generator.py`) -/

/-- Generated question, `generator.PracticalQuestion` (`options` carries the
formatted option dicts). -/
structure FormattedOption where
  value : String
  label : String
  pros : Option String
  cons : Option String
  implementation : Option String
  warning : Option String
deriving DecidableEq, Repr

/-- Practical question, `generator.PracticalQuestion`. -/
structure PracticalQuestion where
  element_id : String
  title : String
  question : String
  options : List FormattedOption
  explanation : String
  urgency : String
  who_to_ask : String
  examples : List String
  default_assumption : Option String
deriving DecidableEq, Repr

/-- The static question templates of
`QuestionGenerator._load_question_templates`. -/
def questionTemplates : List (String × String) :=
  [("delete_method", "
【削除機能について】
{entity}の削除は、以下のどちらの方式で実装しますか？

A) 論理削除（deleted_atフラグを立てる）
   - メリット: 復元可能、履歴が残る、データ分析に使える
   - デメリット: データ容量増加、クエリが複雑化（WHERE deleted_at IS NULL）

B) 物理削除（レコードを完全に削除）
   - メリット: シンプル、容量節約、GDPR対応しやすい
   - デメリット: 復元不可、履歴が残らない

👉 この決定は後から変更困難です（DB全体の再設計が必要）
"),
   ("cascade_delete", "
【関連データの扱いについて】
{entity}を削除する際、以下の関連データはどうしますか？

{related_entities}

選択肢:
A) 全て一緒に削除（カスケード削除）
B) 削除せず残す（孤立データとして）
C) 残すが参照を無効化（匿名化など）
D) ユーザーに選択させる

参考事例:
- SNS: ユーザー削除時、投稿は「残す（匿名化）」が一般的
- プロジェクト管理ツール: プロジェクト削除時、タスクは「一緒に削除」が一般的
- ECサイト: カート削除時、カート内商品は「一緒に削除」

👉 一度削除したデータは復元できません
"),
   ("api_timeout", "
【外部API連携について】
{api_name}の呼び出しは何秒でタイムアウトとしますか？

選択肢:
A) 5秒（短め・リアルタイム系向け）
B) 10秒（一般的）
C) 30秒（重い処理向け）
D) 60秒（バッチ処理など）

👉 タイムアウト設定なしだとシステム全体が停止する可能性があります
"),
   ("api_fallback", "
【外部API障害時の対応】
{api_name}が障害で応答しない場合、どうしますか？

選択肢:
A) キャッシュデータを返す
B) デフォルト値を使う
C) エラー画面を表示
D) キューに入れて後で再実行

👉 外部システムは必ず障害が起きます。フォールバックがないとユーザーに影響します
"),
   ("authentication_method", "
【認証方式の選択】
認証方式は何を採用しますか？

A) JWT（JSON Web Token）
   - メリット: ステートレス、スケールしやすい
   - デメリット: 無効化が難しい

B) セッションベース
   - メリット: 管理しやすい、即座に無効化可能
   - デメリット: サーバー側でセッション管理が必要

C) OAuth 2.0
   - メリット: 標準的、外部サービス連携が容易
   - デメリット: 実装が複雑

👉 この決定はアーキテクチャの根幹です。後から変更は全面的な作り直しになります
"),
   ("token_storage", "
【トークン保存場所】
クライアント側で認証トークンをどこに保存しますか？

A) Cookie（HttpOnly, Secure属性付き）
   - メリット: XSS攻撃に強い
   - デメリット: CSRF対策が必要

B) LocalStorage
   - メリット: 実装が簡単、容量が大きい
   - デメリット: XSS攻撃に弱い

C) SessionStorage
   - メリット: タブを閉じると消える（セキュリティ◯）
   - デメリット: 永続化されない

👉 セキュリティに直結する重要な決定です
")]

/-- Lookup in the static template table (`template_key in self.question_templates`). -/
def lookupTemplate (key : String) : Option String :=
  (questionTemplates.find? (fun kv => kv.1 == key)).map (fun kv => kv.2)

/-- `QuestionGenerator._format_template`: fills `\x7bentity\x7d`,
`\x7bapi_name\x7d` and `\x7brelated_entities\x7d` placeholders from the
context when the keys are present; an absent context returns the template
unchanged. -/
def formatTemplate (template : String) : Option GenContext → String
  | none => template
  | some ctx =>
    let f1 := match ctx.entity with
      | some e => template.replace "{entity}" e
      | none => template
    let f2 := match ctx.api_name with
      | some a => f1.replace "{api_name}" a
      | none => f1
    match ctx.related_entities with
    | some es =>
      f2.replace "{related_entities}" (String.intercalate "\n" (es.map (fun e => "  - " ++ e)))
    | none => f2

/-- `QuestionGenerator._format_options`. -/
def formatOptions (options : List RawOption) : List FormattedOption :=
  options.map (fun o =>
    { value := o.value.getD "", label := o.label.getD "",
      pros := o.pros, cons := o.cons,
      implementation := o.implementation, warning := o.warning })

/-- `QuestionGenerator._generate_explanation`. -/
def generateExplanation (element : ChecklistItem) : String :=
  let parts :=
    (match element.why_critical with
     | some w => ["【重要な理由】\n" ++ w]
     | none => []) ++
    (match element.change_cost_if_later with
     | some c => ["【後から変更する場合のコスト】\n" ++ c]
     | none => []) ++
    (match element.why_optional with
     | some w => ["【備考】\n" ++ w]
     | none => [])
  String.intercalate "\n\n" parts

/-- `QuestionGenerator._suggest_stakeholder`. -/
def suggestStakeholder (element : ChecklistItem) : String :=
  if element.affects.security then "セキュリティチーム、上長"
  else if element.affects.data_model then "プロダクトオーナー、アーキテクト"
  else if element.affects.external_system then "外部連携担当、インフラチーム"
  else
    let criticality := element.criticality.getD ""
    if criticality == "MUST_DEFINE" then "プロダクトオーナー、上長"
    else if criticality == "SHOULD_CONFIRM" then "プロダクトオーナー"
    else "チーム内で決定可能"

/-- `QuestionGenerator.generate`.  An explicit `question_template` is used
when truthy (Python truthiness: an empty string falls through), else a
present `question_template_key` found in the static table, else the item's
plain `question` text. -/
def generate (element : ChecklistItem) (context : Option GenContext) : PracticalQuestion :=
  let base := element.question.getD ""
  let keyBranch :=
    match element.question_template_key with
    | some key =>
      match lookupTemplate key with
      | some t => formatTemplate t context
      | none => base
    | none => base
  let questionText :=
    match element.question_template with
    | some t => if t == "" then keyBranch else formatTemplate t context
    | none => keyBranch
  { element_id := element.id.getD "", title := element.title.getD "",
    question := questionText, options := formatOptions element.options,
    explanation := generateExplanation element,
    urgency := element.criticality.getD "SHOULD_CONFIRM",
    who_to_ask := suggestStakeholder element,
    examples := element.examples,
    default_assumption := element.default_assumption }

/-! ## Undefined extractor (`modules/undefined_extractor/extractor.py`)

The fresh-uuid generator `_generate_id` is modelled by an id supply
`gen : Nat → String` and a draw counter threaded through every producer:
draw `n` yields `gen n`.  Two successive `extract` calls continue the same
supply, as the Python process continues the same uuid stream. -/

/-- The `vague_patterns` table of `UndefinedExtractor._load_detection_rules`;
each regex alternation `a|b|…` is the list of its literal alternatives. -/
def vaguePatterns : List (String × List (List String × String)) :=
  [("非機能要件の曖昧さ",
    [(["速い", "遅い", "高速", "低速"], "パフォーマンス"),
     (["大きい", "小さい", "多い", "少ない", "適切", "十分"], "境界条件"),
     (["安全", "セキュア"], "セキュリティ")]),
   ("振る舞いの曖昧さ",
    [(["すぐに", "速やかに", "適宜", "随時", "定期的"], "タイミング"),
     (["場合", "とき", "際"], "実行条件")])]

/-- `UndefinedExtractor._identify_ambiguity_type`: first matching pattern in
table order, defaulting to the generic performance ambiguity. -/
def identifyAmbiguityType (text : String) : String × String :=
  (vaguePatterns.findSome? (fun cp =>
    cp.2.findSome? (fun ps =>
      if ps.1.any (fun w => occursIn w text) then some (cp.1, ps.2) else none))).getD
    ("非機能要件の曖昧さ", "パフォーマンス")

/-- `UndefinedExtractor._generate_ambiguity_title` (the `category` argument
is unused in the source as well). -/
def generateAmbiguityTitle (text : String) (category : String) : String :=
  if occursIn "速い" text || occursIn "高速" text then "「高速」の具体的基準が不明"
  else if occursIn "安全" text || occursIn "セキュア" text then "「安全」の具体的対策が不明"
  else if occursIn "場合" text || occursIn "とき" text then "実行条件の判定方法が不明"
  else "要件の定義が曖昧"

/-- `UndefinedExtractor._generate_questions_for_entity`. -/
def generateQuestionsForEntity (entity : Entity) : List Question :=
  [{ text := entity.name ++ "のデータ型は何ですか？", type := "specification",
     suggested_answers := ["String", "Integer", "UUID", "Object"] },
   { text := entity.name ++ "の制約条件はありますか？", type := "constraint",
     suggested_answers := ["最大長", "必須/任意", "一意性"] }]

/-- `UndefinedExtractor._generate_questions_for_attribute`. -/
def generateQuestionsForAttribute (entity : Entity) (attr : Attribute) : List Question :=
  [{ text := attr.name ++ "のデータ型は？", type := "specification", suggested_answers := [] },
   { text := attr.name ++ "の最大値・最小値は？", type := "constraint", suggested_answers := [] }]

/-- `UndefinedExtractor._generate_questions_for_condition`. -/
def generateQuestionsForCondition (action : Action) (condition : Condition) : List Question :=
  [{ text := "「" ++ condition.description ++ "」の具体的な判定方法は？",
     type := "clarification", suggested_answers := [] },
   { text := "判定はリアルタイムで行うか、キャッシュを使用するか？", type := "specification",
     suggested_answers := ["リアルタイム", "キャッシュ（1分更新）", "キャッシュ（5分更新）"] }]

/-- `UndefinedExtractor._generate_questions_for_error_handling`. -/
def generateQuestionsForErrorHandling (action : Action) : List Question :=
  [{ text := action.verb ++ "が失敗した場合の挙動は？", type := "exception",
     suggested_answers := [] },
   { text := "エラー時のユーザーへのフィードバックは？", type := "clarification",
     suggested_answers := ["エラーメッセージ表示", "ログ記録のみ", "通知"] }]

/-- `UndefinedExtractor._generate_questions_for_ambiguity` (the `category`
argument is unused in the source as well). -/
def generateQuestionsForAmbiguity (text : String) (category : String) : List Question :=
  if occursIn "速い" text || occursIn "高速" text then
    [{ text := "応答時間の目標値は？（例: 500ms以内）", type := "specification",
       suggested_answers := [] },
     { text := "想定する同時アクセス数は？", type := "specification", suggested_answers := [] }]
  else if occursIn "安全" text || occursIn "セキュア" text then
    [{ text := "具体的なセキュリティ対策は？（CSRF、XSS、SQL injection等）",
       type := "specification", suggested_answers := [] },
     { text := "認証・認可の方式は？", type := "specification", suggested_answers := [] }]
  else
    [{ text := "具体的な基準や数値を定義してください", type := "clarification",
       suggested_answers := [] }]

/-- `UndefinedExtractor._get_entity_context`. -/
def getEntityContext (entity : Entity) (p : ParsedRequirement) : Context :=
  match entity.mentions with
  | [] => { source_text := entity.name, surrounding_text := "", sentence_id := none,
            line_number := 1 }
  | m :: _ =>
    match p.sentences.find? (fun s => s.id == m.sentence_id) with
    | some s => { source_text := entity.name, surrounding_text := s.text,
                  sentence_id := some s.id, line_number := s.line_number }
    | none => { source_text := entity.name, surrounding_text := "", sentence_id := none,
                line_number := 1 }

/-- `UndefinedExtractor._get_action_context`. -/
def getActionContext (action : Action) (p : ParsedRequirement) : Context :=
  match p.sentences.find? (fun s => occursIn action.verb s.text) with
  | some s => { source_text := action.verb, surrounding_text := s.text,
                sentence_id := some s.id, line_number := s.line_number }
  | none => { source_text := action.verb, surrounding_text := "", sentence_id := none,
              line_number := 1 }

/-- `UndefinedExtractor._convert_to_undefined_element`.  The eager Python
default `checklist_item.get("id", self._generate_id())` draws an id on every
item even when the template provides one, so the counter always advances. -/
def convertToUndefinedElement (gen : Nat → String) (item : ChecklistItem)
    (cr : CriticalityResult) (pq : PracticalQuestion) (p : ParsedRequirement)
    (n : Nat) : UndefinedElement × Nat :=
  let priority := match cr.criticality with
    | .MUST_DEFINE => Priority.critical
    | .SHOULD_CONFIRM => Priority.high
    | .CAN_DECIDE_LATER => Priority.medium
  let questions : List Question :=
    { text := pq.question, type := "specification",
      suggested_answers := if pq.options.isEmpty then [] else pq.options.map (fun o => o.label) } ::
    pq.examples.map (fun ex => { text := ex, type := "clarification", suggested_answers := [] })
  ({ id := item.id.getD (gen n),
     category := item.category.getD "処理タイプ固有の確認事項",
     subcategory := item.title.getD "",
     related_entity := none, related_action := none, related_requirement := none,
     title := pq.title, description := pq.explanation,
     questions := questions,
     detection := { method := "template_driven", confidence := cr.score / 10,
                    reasoning := "処理タイプ別チェックリストによる検出。" ++ cr.reason },
     context := { source_text := strTake p.original_content 100,
                  surrounding_text := p.original_content, sentence_id := none,
                  line_number := 1 },
     estimated_severity := priority,
     criticality_info := some
       { level := criticalityValue cr.criticality,
         change_cost := cr.change_cost_if_later,
         timing := cr.recommended_decision_timing,
         who_to_ask := pq.who_to_ask,
         default := cr.default_assumption } }, n + 1)

/-- Item loop of `UndefinedExtractor._extract_from_checklist`. -/
def checklistLoop (gen : Nat → String) (ctx : GenContext) (actionTypeStr : String)
    (p : ParsedRequirement) : List ChecklistItem → Nat → List UndefinedElement × Nat
  | [], n => ([], n)
  | item :: items, n =>
    let cr := judge item actionTypeStr (some ctx)
    let pq := generate item (some ctx)
    let c := convertToUndefinedElement gen item cr pq p n
    let rest := checklistLoop gen ctx actionTypeStr p items c.2
    (c.1 :: rest.1, rest.2)

/-- `UndefinedExtractor._extract_from_checklist`: one finding per checklist
item of the winning category, judged and provided with a generated question. -/
def extractFromChecklist (gen : Nat → String) (templates : String → List ChecklistItem)
    (cl : ClassificationResult) (p : ParsedRequirement) (n : Nat) :
    List UndefinedElement × Nat :=
  let items := templates (atName cl.action_type)
  let ctx : GenContext :=
    { entity := some (cl.detected_entities.headD "対象"),
      api_name := none, related_entities := none,
      action_type := some (atValue cl.action_type),
      original_text := some cl.context }
  checklistLoop gen ctx (atName cl.action_type) p items n

/-- Attribute loop of `UndefinedExtractor._extract_from_entity`: one finding
per attribute mentioned but not defined. -/
def attrLoop (gen : Nat → String) (entity : Entity) (p : ParsedRequirement) :
    List Attribute → Nat → List UndefinedElement × Nat
  | [], n => ([], n)
  | attr :: attrs, n =>
    if attr.mentioned && !attr.defined then
      let e : UndefinedElement :=
        { id := gen n, category := "データ定義の欠落", subcategory := "制約条件",
          related_entity := some entity.id, related_action := none,
          related_requirement := none,
          title := entity.name ++ "の" ++ attr.name ++ "の仕様が不明",
          description := attr.name ++ "のデータ型、制約条件が定義されていません",
          questions := generateQuestionsForAttribute entity attr,
          detection := { method := "rule_based", confidence := 9 / 10,
                         reasoning := "属性が言及されているが型定義がない" },
          context := getEntityContext entity p,
          estimated_severity := Priority.medium, criticality_info := none }
      let rest := attrLoop gen entity p attrs (n + 1)
      (e :: rest.1, rest.2)
    else attrLoop gen entity p attrs n

/-- `UndefinedExtractor._extract_from_entity`: one finding for a still
`undefined` entity, plus the attribute findings. -/
def extractFromEntity (gen : Nat → String) (entity : Entity) (p : ParsedRequirement)
    (n : Nat) : List UndefinedElement × Nat :=
  let headPair :=
    if entity.definition_status == "undefined" then
      ([({ id := gen n, category := "データ定義の欠落", subcategory := "型定義",
           related_entity := some entity.id, related_action := none,
           related_requirement := none,
           title := entity.name ++ "の定義が不明確",
           description := entity.name ++ "の具体的なデータ型や属性が定義されていません",
           questions := generateQuestionsForEntity entity,
           detection := { method := "rule_based", confidence := 85 / 100,
                          reasoning := "エンティティが言及されているが、具体的な定義がない" },
           context := getEntityContext entity p,
           estimated_severity := Priority.medium, criticality_info := none } :
           UndefinedElement)], n + 1)
    else ([], n)
  let attrsPair := attrLoop gen entity p entity.attributes headPair.2
  (headPair.1 ++ attrsPair.1, attrsPair.2)

/-- Precondition loop of `UndefinedExtractor._extract_from_action`: one
finding per ambiguous precondition. -/
def precondLoop (gen : Nat → String) (action : Action) (p : ParsedRequirement) :
    List Condition → Nat → List UndefinedElement × Nat
  | [], n => ([], n)
  | c :: cs, n =>
    if c.ambiguous then
      let e : UndefinedElement :=
        { id := gen n, category := "振る舞いの曖昧さ", subcategory := "実行条件",
          related_entity := none, related_action := some action.id,
          related_requirement := none,
          title := action.verb ++ "の実行条件が曖昧",
          description := "「" ++ c.description ++ "」の具体的な判定方法が不明",
          questions := generateQuestionsForCondition action c,
          detection := { method := "semantic_analysis", confidence := 85 / 100,
                         reasoning := "条件文が存在するが具体的な定義がない" },
          context := getActionContext action p,
          estimated_severity := Priority.high, criticality_info := none }
      let rest := precondLoop gen action p cs (n + 1)
      (e :: rest.1, rest.2)
    else precondLoop gen action p cs n

/-- The generic missing-error-handling finding of
`UndefinedExtractor._extract_from_action`. -/
def genericErrorElement (gen : Nat → String) (action : Action) (p : ParsedRequirement)
    (n : Nat) : UndefinedElement :=
  { id := gen n, category := "エラーハンドリングの欠落", subcategory := "ユーザーフィードバック",
    related_entity := none, related_action := some action.id, related_requirement := none,
    title :=
      if action.verb == "処理" then "アクション " ++ action.id ++ " のエラー処理が未定義"
      else action.verb ++ "のエラー処理が未定義",
    description := "エラー発生時の挙動やユーザーへのフィードバックが定義されていません",
    questions := generateQuestionsForErrorHandling action,
    detection := { method := "rule_based", confidence := 8 / 10,
                   reasoning := "正常系の記述のみでエラー処理の言及がない" },
    context := getActionContext action p,
    estimated_severity := Priority.medium, criticality_info := none }

/-- `UndefinedExtractor._extract_from_action`: ambiguous preconditions are
always reported; the generic missing-error-handling finding is skipped when
the passed classification resolved to a known (non-`UNKNOWN`) action type. -/
def extractFromAction (gen : Nat → String) (action : Action) (p : ParsedRequirement)
    (classification : Option ClassificationResult) (n : Nat) :
    List UndefinedElement × Nat :=
  let pre := precondLoop gen action p action.preconditions n
  let errs :=
    match action.error_handling with
    | some eh =>
      if !eh.defined then
        match classification with
        | some cl =>
          if cl.action_type ≠ ActionType.UNKNOWN then ([], pre.2)
          else ([genericErrorElement gen action p pre.2], pre.2 + 1)
        | none => ([genericErrorElement gen action p pre.2], pre.2 + 1)
      else ([], pre.2)
    | none => ([], pre.2)
  (pre.1 ++ errs.1, errs.2)

/-- `UndefinedExtractor._extract_from_requirement`: one finding per
requirement with ambiguity score above 0.6. -/
def extractFromRequirement (gen : Nat → String) (requirement : Requirement) (n : Nat) :
    List UndefinedElement × Nat :=
  if 6 / 10 < requirement.ambiguity_score then
    let cs := identifyAmbiguityType requirement.text
    ([{ id := gen n, category := cs.1, subcategory := cs.2,
        related_entity := none, related_action := none,
        related_requirement := some requirement.id,
        title := generateAmbiguityTitle requirement.text cs.1,
        description := "「" ++ requirement.text ++ "」に曖昧な表現が含まれています",
        questions := generateQuestionsForAmbiguity requirement.text cs.1,
        detection := { method := "pattern_matching", confidence := 75 / 100,
                       reasoning := "曖昧さスコア: " ++ toString requirement.ambiguity_score },
        context := { source_text := requirement.text,
                     surrounding_text := requirement.text,
                     sentence_id := none, line_number := 1 },
        estimated_severity := Priority.medium, criticality_info := none }], n + 1)
  else ([], n)

/-- Sequencing of one per-item producer over a list, threading the id draw
counter (the `for … : undefined_elements.extend(…)` loops of `extract`). -/
def runProducer {α : Type} (f : α → Nat → List UndefinedElement × Nat) :
    List α → Nat → List UndefinedElement × Nat
  | [], n => ([], n)
  | x :: xs, n =>
    let es := f x n
    let rest := runProducer f xs es.2
    (es.1 ++ rest.1, rest.2)

/-- The finding list assembled by `UndefinedExtractor.extract`: classify the
original content, then run the checklist producer (known category only), the
entity producer, the action producer (with the classification, for the
suppression rule) and the requirement producer, in that order.  The
surrounding `UndefinedElements` container additionally carries statistics
and a meta-analysis derived purely from this list, plus an `analyzed_at`
wall-clock timestamp; the claims under verification are about the findings. -/
def extractElements (gen : Nat → String) (templates : String → List ChecklistItem)
    (p : ParsedRequirement) (n : Nat) : List UndefinedElement × Nat :=
  let cl := classify p.original_content
  let ck :=
    if cl.action_type ≠ ActionType.UNKNOWN then extractFromChecklist gen templates cl p n
    else ([], n)
  let ent := runProducer (fun e => extractFromEntity gen e p) p.entities ck.2
  let act := runProducer (fun a => extractFromAction gen a p (some cl)) p.actions ent.2
  let req := runProducer (fun r => extractFromRequirement gen r) p.requirements act.2
  (ck.1 ++ (ent.1 ++ (act.1 ++ req.1)), req.2)

/-- Erase the drawn id of a finding (for comparing two `extract` runs up to
the freshly generated uuids). -/
def stripId (e : UndefinedElement) : UndefinedElement :=
  { e with id := "" }

/-! ## Lemmas: substring scanning -/

theorem hasSubList_nil_left (h : List Char) : hasSubList [] h = true := by
  cases h <;> simp [hasSubList, leadsWith]

theorem leadsWith_append (n h k : List Char) (hl : leadsWith n h = true) :
    leadsWith n (h ++ k) = true := by
  induction n generalizing h with
  | nil => simp [leadsWith]
  | cons a as ih =>
    cases h with
    | nil => simp [leadsWith] at hl
    | cons b bs =>
      simp only [leadsWith, Bool.and_eq_true] at hl
      simp only [List.cons_append, leadsWith, Bool.and_eq_true]
      exact ⟨hl.1, ih bs hl.2⟩

theorem hasSubList_append (n h k : List Char) (hs : hasSubList n h = true) :
    hasSubList n (h ++ k) = true := by
  induction h with
  | nil =>
    cases n with
    | nil => exact hasSubList_nil_left k
    | cons a as => simp [hasSubList, leadsWith] at hs
  | cons b bs ih =>
    simp only [hasSubList, Bool.or_eq_true] at hs
    simp only [List.cons_append, hasSubList, Bool.or_eq_true]
    rcases hs with hs | hs
    · exact Or.inl (leadsWith_append n (b :: bs) k hs)
    · exact Or.inr (ih hs)

theorem mem_of_leadsWith {n h : List Char} (hl : leadsWith n h = true) {c : Char}
    (hc : c ∈ n) : c ∈ h := by
  induction n generalizing h with
  | nil => simp at hc
  | cons a as ih =>
    cases h with
    | nil => simp [leadsWith] at hl
    | cons b bs =>
      simp only [leadsWith, Bool.and_eq_true, beq_iff_eq] at hl
      rcases List.mem_cons.mp hc with rfl | hc
      · exact hl.1 ▸ List.mem_cons_self _ _
      · exact List.mem_cons_of_mem _ (ih hl.2 hc)

theorem mem_of_hasSubList {n h : List Char} (hs : hasSubList n h = true) {c : Char}
    (hc : c ∈ n) : c ∈ h := by
  induction h with
  | nil =>
    cases n with
    | nil => simp at hc
    | cons a as => simp [hasSubList, leadsWith] at hs
  | cons b bs ih =>
    simp only [hasSubList, Bool.or_eq_true] at hs
    rcases hs with hs | hs
    · exact mem_of_leadsWith hs hc
    · exact List.mem_cons_of_mem _ (ih hs)

theorem occursIn_append (k t u : String) (h : occursIn k t = true) :
    occursIn k (t ++ u) = true := by
  unfold occursIn at h ⊢
  rw [String.data_append]
  exact hasSubList_append _ _ _ h

/-- A needle containing a non-space character does not occur in all-space text. -/
theorem occursIn_false_of_space {k t : String}
    (ht : ∀ c ∈ t.data, isSpaceChar c = true)
    (hk : k.data.any (fun c => !isSpaceChar c) = true) : occursIn k t = false := by
  by_contra hcon
  rw [Bool.not_eq_false] at hcon
  rcases List.any_eq_true.mp hk with ⟨c, hck, hcs⟩
  have := ht c (mem_of_hasSubList hcon hck)
  simp [this] at hcs

/-! ## Lemmas: vote counting and the first-maximum selection -/

theorem votes_mono (p : CategoryPattern) (t u : String) : votes p t ≤ votes p (t ++ u) := by
  unfold votes
  rw [← List.countP_eq_length_filter, ← List.countP_eq_length_filter]
  exact List.countP_mono_left (fun k _ hk => occursIn_append k t u hk)

theorem le_foldrMax (l : List Nat) (x : Nat) (hx : x ∈ l) : x ≤ l.foldr max 0 := by
  induction l with
  | nil => simp at hx
  | cons a as ih =>
    rcases List.mem_cons.mp hx with rfl | hx
    · exact le_max_left _ _
    · exact le_trans (ih hx) (le_max_right _ _)

theorem foldrMax_le (l : List Nat) (b : Nat) (hb : ∀ x ∈ l, x ≤ b) : l.foldr max 0 ≤ b := by
  induction l with
  | nil => simp
  | cons a as ih =>
    simp only [List.foldr_cons, max_le_iff]
    exact ⟨hb a (List.mem_cons_self _ _), ih (fun x hx => hb x (List.mem_cons_of_mem _ hx))⟩

theorem maxVotes_mono (t u : String) : maxVotes t ≤ maxVotes (t ++ u) := by
  unfold maxVotes
  refine foldrMax_le _ _ (fun x hx => ?_)
  rcases List.mem_map.mp hx with ⟨ap, hap, rfl⟩
  exact le_trans (votes_mono ap.2 t u)
    (le_foldrMax _ _ (List.mem_map_of_mem (fun ap => votes ap.2 (t ++ u)) hap))

theorem votesFor_le_maxVotes (a : ActionType) (t : String) : votesFor a t ≤ maxVotes t := by
  unfold votesFor
  cases hf : ACTION_PATTERNS.find? (fun ap => decide (ap.1 = a)) with
  | none => exact Nat.zero_le _
  | some ap =>
    exact le_foldrMax _ _
      (List.mem_map_of_mem (fun ap => votes ap.2 t) (List.mem_of_find?_eq_some hf))

theorem votesFor_mono (a : ActionType) (t u : String) : votesFor a t ≤ votesFor a (t ++ u) := by
  unfold votesFor
  cases ACTION_PATTERNS.find? (fun ap => decide (ap.1 = a)) with
  | none => exact le_refl _
  | some ap => exact votes_mono ap.2 t u

/-- Specification of Python `max(…, key=…)` as a left fold keeping the first
strictly greater element: the result bounds every candidate and splits the
candidate list with strictly smaller elements before it. -/
theorem foldl_pick_spec (v : α → Nat) (xs : List α) (x : α) :
    (∀ z ∈ x :: xs, v z ≤ v (xs.foldl (fun acc y => if v y > v acc then y else acc) x)) ∧
    ∃ l₁ l₂, x :: xs = l₁ ++ (xs.foldl (fun acc y => if v y > v acc then y else acc) x) :: l₂ ∧
      ∀ z ∈ l₁, v z < v (xs.foldl (fun acc y => if v y > v acc then y else acc) x) := by
  induction xs generalizing x with
  | nil =>
    refine ⟨?_, [], [], rfl, by simp⟩
    intro z hz
    rcases List.mem_cons.mp hz with rfl | hz
    · exact le_refl _
    · simp at hz
  | cons y ys ih =>
    simp only [List.foldl_cons]
    rcases ih (if v y > v x then y else x) with ⟨hbound, l₁, l₂, hdec, hsmall⟩
    set r := ys.foldl (fun acc y => if v y > v acc then y else acc) (if v y > v x then y else x)
      with hr
    have hx' : v (if v y > v x then y else x) ≤ v r :=
      hbound _ (List.mem_cons_self _ _)
    have hxle : v x ≤ v r := by
      by_cases hc : v y > v x
      · simp only [if_pos hc] at hx'
        exact le_trans (le_of_lt hc) hx'
      · simpa only [if_neg hc] using hx'
    have hyle : v y ≤ v r := by
      by_cases hc : v y > v x
      · simpa only [if_pos hc] using hx'
      · simp only [if_neg hc] at hx'
        exact le_trans (Nat.le_of_not_lt hc) hx'
    constructor
    · intro z hz
      rcases List.mem_cons.mp hz with rfl | hz
      · exact hxle
      rcases List.mem_cons.mp hz with rfl | hz
      · exact hyle
      · exact hbound z (List.mem_cons_of_mem _ hz)
    · by_cases hc : v y > v x
      · -- the accumulator became y; x goes in front of the decomposition
        rw [if_pos hc] at hdec
        rcases l₁ with _ | ⟨w, l₁'⟩
        · -- r is the new accumulator y itself
          simp only [List.nil_append] at hdec
          injection hdec with h1 h2
          refine ⟨[x], l₂, ?_, ?_⟩
          · simp only [List.cons_append, List.nil_append]
            rw [← h1, ← h2]
          · intro z hz
            rcases List.mem_cons.mp hz with rfl | hz
            · exact h1 ▸ hc
            · simp at hz
        · -- r sits inside ys
          simp only [List.cons_append] at hdec
          injection hdec with h1 h2
          refine ⟨x :: w :: l₁', l₂, by simp [h1, ← h2], ?_⟩
          intro z hz
          have hwr : v w < v r := hsmall _ (List.mem_cons_self _ _)
          rcases List.mem_cons.mp hz with rfl | hz
          · exact lt_trans (h1 ▸ hc) hwr
          rcases List.mem_cons.mp hz with rfl | hz
          · exact hwr
          · exact hsmall _ (List.mem_cons_of_mem _ hz)
      · -- the accumulator stays x
        rw [if_neg hc] at hdec
        rcases l₁ with _ | ⟨w, l₁'⟩
        · simp only [List.nil_append] at hdec
          injection hdec with h1 h2
          refine ⟨[], y :: ys, ?_, by simp⟩
          simp only [List.nil_append]
          rw [← h1]
        · simp only [List.cons_append] at hdec
          injection hdec with h1 h2
          refine ⟨x :: y :: l₁', l₂, by simp [← h2], ?_⟩
          intro z hz
          have hxr : v x < v r := h1 ▸ hsmall _ (List.mem_cons_self _ _)
          rcases List.mem_cons.mp hz with rfl | hz
          · exact hxr
          rcases List.mem_cons.mp hz with rfl | hz
          · exact lt_of_le_of_lt (Nat.le_of_not_lt hc) hxr
          · exact hsmall _ (List.mem_cons_of_mem _ hz)

/-- A decomposition of a filtered list lifts to a decomposition of the
original list: everything in front of the distinguished element either
failed the filter or was already in front of it in the filtered list. -/
theorem filter_decomp {α : Type} (p : α → Bool) :
    ∀ (l l₁ l₂ : List α) (r : α), l.filter p = l₁ ++ r :: l₂ →
      ∃ a₁ a₂, l = a₁ ++ r :: a₂ ∧ ∀ z ∈ a₁, p z = false ∨ z ∈ l₁
  | [], l₁, l₂, r, h => by
    simp only [List.filter_nil] at h
    exact absurd h.symm (List.append_ne_nil_of_right_ne_nil _ (List.cons_ne_nil _ _))
  | b :: bl, l₁, l₂, r, h => by
    by_cases hb : p b = true
    · rw [List.filter_cons_of_pos hb] at h
      rcases l₁ with _ | ⟨w, l₁'⟩
      · simp only [List.nil_append] at h
        injection h with h1 h2
        exact ⟨[], bl, by simp [h1], by simp⟩
      · simp only [List.cons_append] at h
        injection h with h1 h2
        rcases filter_decomp p bl l₁' l₂ r h2 with ⟨a₁, a₂, hdec, hfront⟩
        refine ⟨b :: a₁, a₂, by simp [hdec], ?_⟩
        intro z hz
        rcases List.mem_cons.mp hz with rfl | hz
        · exact Or.inr (h1 ▸ List.mem_cons_self _ _)
        · rcases hfront z hz with hf | hf
          · exact Or.inl hf
          · exact Or.inr (List.mem_cons_of_mem _ hf)
    · rw [List.filter_cons_of_neg hb] at h
      rcases filter_decomp p bl l₁ l₂ r h with ⟨a₁, a₂, hdec, hfront⟩
      refine ⟨b :: a₁, a₂, by simp [hdec], ?_⟩
      intro z hz
      rcases List.mem_cons.mp hz with rfl | hz
      · exact Or.inl (Bool.not_eq_true _ ▸ hb)
      · exact hfront z hz

theorem find?_append_of_none {α : Type} (q : α → Bool) (a₁ l : List α)
    (h : ∀ z ∈ a₁, q z = false) : (a₁ ++ l).find? q = l.find? q := by
  induction a₁ with
  | nil => rfl
  | cons b bl ih =>
    have hb := h b (List.mem_cons_self _ _)
    simp only [List.cons_append, List.find?_cons, hb]
    exact ih (fun z hz => h z (List.mem_cons_of_mem _ hz))

/-- With pairwise distinct keys, `find?` by key returns the member pair. -/
theorem find_key_of_mem {β : Type} [DecidableEq β] :
    ∀ (l : List (ActionType × β)) (a : ActionType) (p : β),
      (l.map Prod.fst).Nodup → (a, p) ∈ l →
      l.find? (fun ap => decide (ap.1 = a)) = some (a, p)
  | [], a, p, _, hm => by simp at hm
  | (b, q) :: tl, a, p, hnd, hm => by
    simp only [List.map_cons, List.nodup_cons] at hnd
    by_cases hba : b = a
    · subst hba
      rcases List.mem_cons.mp hm with heq | hmem
      · rw [← heq]
        rw [List.find?_cons_of_pos _ (by simp)]
      · exact absurd (List.mem_map_of_mem Prod.fst hmem) hnd.1
    · have htl : (a, p) ∈ tl := by
        rcases List.mem_cons.mp hm with heq | hmem
        · injection heq with h1 _
          exact absurd h1.symm hba
        · exact hmem
      rw [List.find?_cons_of_neg _ (by simpa using hba)]
      exact find_key_of_mem tl a p hnd.2 htl

/-! ## Lemmas: classifier characterization -/

theorem keys_nodup : (ACTION_PATTERNS.map Prod.fst).Nodup := by decide

theorem mem_scored {t : String} {ap : ActionType × CategoryPattern}
    (h : ap ∈ scoredPatterns t) : ap ∈ ACTION_PATTERNS ∧ 0 < votes ap.2 t := by
  have := List.mem_filter.mp h
  exact ⟨this.1, by simpa using this.2⟩

theorem scored_of_mem {t : String} {ap : ActionType × CategoryPattern}
    (h : ap ∈ ACTION_PATTERNS) (hv : 0 < votes ap.2 t) : ap ∈ scoredPatterns t :=
  List.mem_filter.mpr ⟨h, by simpa using hv⟩

theorem votes_le_maxVotes {t : String} {ap : ActionType × CategoryPattern}
    (h : ap ∈ ACTION_PATTERNS) : votes ap.2 t ≤ maxVotes t :=
  le_foldrMax _ _ (List.mem_map_of_mem (fun ap => votes ap.2 t) h)

/-- When the scores dict is empty, so is the maximal vote count, and
conversely. -/
theorem scored_nil_iff (t : String) : scoredPatterns t = [] ↔ maxVotes t = 0 := by
  constructor
  · intro h
    have hall : ∀ ap ∈ ACTION_PATTERNS, ¬(0 < votes ap.2 t) := by
      intro ap hap hv
      have : ap ∈ scoredPatterns t := scored_of_mem hap hv
      rw [h] at this
      simp at this
    refine Nat.le_antisymm (foldrMax_le _ _ ?_) (Nat.zero_le _)
    intro x hx
    rcases List.mem_map.mp hx with ⟨ap, hap, rfl⟩
    exact Nat.le_of_not_lt (hall ap hap)
  · intro h
    unfold scoredPatterns
    rw [List.filter_eq_nil_iff]
    intro ap hap
    have := votes_le_maxVotes (t := t) hap
    rw [h] at this
    simp [Nat.le_zero.mp this]

/-- Shape of the classification when no keyword hits. -/
theorem classify_of_no_scores {t : String} (h : scoredPatterns t = []) :
    classify t = { action_type := ActionType.UNKNOWN, confidence := 0,
                   detected_entities := classifierExtractEntities t, base_severity := "LOW",
                   matched_keywords := [], context := t } := by
  unfold classify
  rw [h]
  rfl

/-- Shape of the classification for a chosen best pattern. -/
theorem classify_of_pick {t : String} {bp : ActionType × CategoryPattern}
    (h : pickBest t (scoredPatterns t) = some bp) :
    classify t = { action_type := bp.1, confidence := min ((votes bp.2 t : ℚ) / 3) 1,
                   detected_entities := classifierExtractEntities t,
                   base_severity := bp.2.base_severity,
                   matched_keywords := bp.2.keywords.filter (fun k => occursIn k t),
                   context := t } := by
  unfold classify
  rw [h]

/-- The chosen pattern attains the maximal vote count over the whole table
and is the first table entry doing so. -/
theorem pickBest_first_max {t : String} {bp : ActionType × CategoryPattern}
    (h : pickBest t (scoredPatterns t) = some bp) :
    bp ∈ ACTION_PATTERNS ∧ votes bp.2 t = maxVotes t ∧
      ACTION_PATTERNS.find? (fun ap => decide (votes ap.2 t = maxVotes t)) = some bp := by
  rcases hsp : scoredPatterns t with _ | ⟨x, xs⟩
  · rw [hsp] at h
    simp [pickBest] at h
  rw [hsp] at h
  simp only [pickBest, Option.some.injEq] at h
  rcases foldl_pick_spec (fun ap => votes ap.2 t) xs x with ⟨hbound, l₁, l₂, hdec, hsmall⟩
  rw [h] at hbound hdec hsmall
  rw [← hsp] at hdec
  -- membership in the table
  have hmem_sc : bp ∈ scoredPatterns t := by
    rw [hdec]
    exact List.mem_append_right _ (List.mem_cons_self _ _)
  have hmem : bp ∈ ACTION_PATTERNS := (mem_scored hmem_sc).1
  -- the chosen votes are maximal over the whole table
  have hub : ∀ ap ∈ ACTION_PATTERNS, votes ap.2 t ≤ votes bp.2 t := by
    intro ap hap
    by_cases hv : 0 < votes ap.2 t
    · have : ap ∈ scoredPatterns t := scored_of_mem hap hv
      rw [hdec] at this
      rcases List.mem_append.mp this with hin | hin
      · exact le_of_lt (hsmall ap hin)
      · rcases List.mem_cons.mp hin with rfl | hin
        · exact le_refl _
        · -- elements after bp are bounded through the fold bound
          have : ap ∈ x :: xs := by
            rw [hsp] at hdec
            rw [hdec]
            exact List.mem_append_right _ (List.mem_cons_of_mem _ hin)
          exact hbound ap this
    · exact le_trans (Nat.le_of_not_lt hv) (Nat.zero_le _)
  have hmax : votes bp.2 t = maxVotes t :=
    Nat.le_antisymm (votes_le_maxVotes hmem)
      (foldrMax_le _ _ (fun v hv => by
        rcases List.mem_map.mp hv with ⟨ap, hap, rfl⟩
        exact hub ap hap))
  refine ⟨hmem, hmax, ?_⟩
  -- firstness: lift the decomposition of the filtered list to the table
  have hdec' : ACTION_PATTERNS.filter (fun ap => decide (0 < votes ap.2 t)) = l₁ ++ bp :: l₂ :=
    hdec
  rcases filter_decomp _ ACTION_PATTERNS l₁ l₂ bp hdec' with ⟨a₁, a₂, hadec, hfront⟩
  have hMpos : 0 < maxVotes t := by
    rcases mem_scored hmem_sc with ⟨_, hv⟩
    exact hmax ▸ hv
  have hfail : ∀ z ∈ a₁, (fun ap => decide (votes ap.2 t = maxVotes t)) z = false := by
    intro z hz
    simp only [decide_eq_false_iff_not]
    rcases hfront z hz with hf | hf
    · have hz0 : ¬(0 < votes z.2 t) := by simpa using hf
      omega
    · have := hsmall z hf
      rw [hmax] at this
      omega
  rw [hadec, find?_append_of_none _ a₁ _ hfail]
  simp [List.find?_cons, hmax]

theorem pickBest_eq_none {t : String} {l : List (ActionType × CategoryPattern)} :
    pickBest t l = none ↔ l = [] := by
  cases l <;> simp [pickBest]

theorem votesFor_unknown (t : String) : votesFor ActionType.UNKNOWN t = 0 := rfl

/-- The vote count recorded for the chosen pattern agrees with the
key-indexed lookup `votesFor` (the table keys are pairwise distinct). -/
theorem votesFor_of_mem {t : String} {bp : ActionType × CategoryPattern}
    (h : bp ∈ ACTION_PATTERNS) : votesFor bp.1 t = votes bp.2 t := by
  unfold votesFor
  rw [find_key_of_mem ACTION_PATTERNS bp.1 bp.2 keys_nodup h]

/-- The classifier's confidence is always `min(maxVotes/3, 1)`. -/
theorem classify_conf (t : String) :
    (classify t).confidence = min ((maxVotes t : ℚ) / 3) 1 := by
  cases hpb : pickBest t (scoredPatterns t) with
  | none =>
    have hnil : scoredPatterns t = [] := pickBest_eq_none.mp hpb
    rw [classify_of_no_scores hnil, (scored_nil_iff t).mp hnil]
    norm_num
  | some bp =>
    rw [classify_of_pick hpb, (pickBest_first_max hpb).2.1]

/-- The classifier's chosen action type records the maximal vote count. -/
theorem classify_votesFor (t : String) :
    votesFor (classify t).action_type t = maxVotes t := by
  cases hpb : pickBest t (scoredPatterns t) with
  | none =>
    have hnil : scoredPatterns t = [] := pickBest_eq_none.mp hpb
    rw [classify_of_no_scores hnil, (scored_nil_iff t).mp hnil]
    exact votesFor_unknown t
  | some bp =>
    rcases pickBest_first_max hpb with ⟨hmem, hmax, _⟩
    rw [classify_of_pick hpb]
    exact (votesFor_of_mem hmem).trans hmax

/-! ## Lemmas: judge score bounds -/

theorem affectsScore_bounds (a : Affects) : 0 ≤ affectsScore a ∧ affectsScore a ≤ 8 := by
  unfold affectsScore
  split_ifs <;> norm_num

theorem changeCostScore_bounds (cc : String) :
    1 / 2 ≤ changeCostScore cc ∧ changeCostScore cc ≤ 3 := by
  unfold changeCostScore
  split_ifs <;> norm_num

theorem phaseScore_bounds (ph : String) : 0 ≤ phaseScore ph ∧ phaseScore ph ≤ 2 := by
  unfold phaseScore
  split_ifs <;> norm_num

theorem overrideFloor_bounds (cstr : String) (raw : ℚ) :
    raw ≤ overrideFloor cstr raw ∧ overrideFloor cstr raw ≤ max raw 5 := by
  unfold overrideFloor
  split_ifs
  · exact ⟨le_max_left _ _, le_refl _⟩
  · exact ⟨le_max_left _ _, max_le_max (le_refl raw) (by norm_num)⟩
  · exact ⟨le_refl _, le_max_left _ _⟩

/-- The judge's score always lies between the change-cost fallback 0.5 and
the clip 10. -/
theorem calculateScore_bounds (e : ChecklistItem) (a : String) (c : Option GenContext) :
    1 / 2 ≤ calculateScore e a c ∧ calculateScore e a c ≤ 10 := by
  unfold calculateScore
  rcases affectsScore_bounds e.affects with ⟨h1l, h1u⟩
  rcases changeCostScore_bounds (e.change_cost_if_later.getD "") with ⟨h2l, h2u⟩
  rcases phaseScore_bounds (e.detection_phase.getD "implementation") with ⟨h3l, h3u⟩
  rcases overrideFloor_bounds (e.criticality.getD "")
    (affectsScore e.affects + changeCostScore (e.change_cost_if_later.getD "")
      + phaseScore (e.detection_phase.getD "implementation")) with ⟨h4l, _⟩
  constructor
  · refine le_min (le_trans ?_ h4l) (by norm_num)
    linarith
  · exact min_le_right _ _

theorem judge_score (e : ChecklistItem) (a : String) (c : Option GenContext) :
    (judge e a c).score = calculateScore e a c := rfl

theorem judge_criticality (e : ChecklistItem) (a : String) (c : Option GenContext) :
    (judge e a c).criticality = determineCriticality (calculateScore e a c) e := rfl

/-! ## Lemmas: findings depend on the id supply only through their ids -/

theorem convert_stripId (gen gen' : Nat → String) (item : ChecklistItem)
    (cr : CriticalityResult) (pq : PracticalQuestion) (p : ParsedRequirement) (n n' : Nat) :
    stripId (convertToUndefinedElement gen item cr pq p n).1
      = stripId (convertToUndefinedElement gen' item cr pq p n').1 := rfl

theorem checklistLoop_stripId (gen gen' : Nat → String) (ctx : GenContext) (ats : String)
    (p : ParsedRequirement) :
    ∀ (items : List ChecklistItem) (n n' : Nat),
      ((checklistLoop gen ctx ats p items n).1).map stripId
        = ((checklistLoop gen' ctx ats p items n').1).map stripId
  | [], _, _ => rfl
  | item :: items, n, n' => by
    show stripId (convertToUndefinedElement gen item (judge item ats (some ctx))
            (generate item (some ctx)) p n).1
          :: ((checklistLoop gen ctx ats p items
                ((convertToUndefinedElement gen item (judge item ats (some ctx))
                  (generate item (some ctx)) p n).2)).1).map stripId
        = stripId (convertToUndefinedElement gen' item (judge item ats (some ctx))
            (generate item (some ctx)) p n').1
          :: ((checklistLoop gen' ctx ats p items
                ((convertToUndefinedElement gen' item (judge item ats (some ctx))
                  (generate item (some ctx)) p n').2)).1).map stripId
    exact congrArg₂ List.cons (convert_stripId gen gen' item _ _ p n n')
      (checklistLoop_stripId gen gen' ctx ats p items _ _)

theorem attrLoop_stripId (gen gen' : Nat → String) (entity : Entity) (p : ParsedRequirement) :
    ∀ (attrs : List Attribute) (n n' : Nat),
      ((attrLoop gen entity p attrs n).1).map stripId
        = ((attrLoop gen' entity p attrs n').1).map stripId
  | [], _, _ => rfl
  | attr :: attrs, n, n' => by
    by_cases hc : (attr.mentioned && !attr.defined) = true
    · simp only [attrLoop, if_pos hc, List.map_cons]
      exact congrArg₂ List.cons rfl (attrLoop_stripId gen gen' entity p attrs _ _)
    · simp only [attrLoop, if_neg hc]
      exact attrLoop_stripId gen gen' entity p attrs n n'

theorem extractFromEntity_stripId (gen gen' : Nat → String) (entity : Entity)
    (p : ParsedRequirement) (n n' : Nat) :
    ((extractFromEntity gen entity p n).1).map stripId
      = ((extractFromEntity gen' entity p n').1).map stripId := by
  unfold extractFromEntity
  by_cases hdef : (entity.definition_status == "undefined") = true
  · simp only [if_pos hdef, List.map_append, List.map_cons, List.map_nil]
    exact congrArg₂ List.append rfl (attrLoop_stripId gen gen' entity p entity.attributes _ _)
  · simp only [if_neg hdef, List.map_append, List.map_nil]
    exact congrArg₂ List.append rfl (attrLoop_stripId gen gen' entity p entity.attributes _ _)

theorem precondLoop_stripId (gen gen' : Nat → String) (action : Action) (p : ParsedRequirement) :
    ∀ (cs : List Condition) (n n' : Nat),
      ((precondLoop gen action p cs n).1).map stripId
        = ((precondLoop gen' action p cs n').1).map stripId
  | [], _, _ => rfl
  | c :: cs, n, n' => by
    by_cases hc : c.ambiguous = true
    · simp only [precondLoop, if_pos hc, List.map_cons]
      exact congrArg₂ List.cons rfl (precondLoop_stripId gen gen' action p cs _ _)
    · simp only [precondLoop, if_neg hc]
      exact precondLoop_stripId gen gen' action p cs n n'

theorem extractFromAction_stripId (gen gen' : Nat → String) (action : Action)
    (p : ParsedRequirement) (cls : Option ClassificationResult) (n n' : Nat) :
    ((extractFromAction gen action p cls n).1).map stripId
      = ((extractFromAction gen' action p cls n').1).map stripId := by
  unfold extractFromAction
  cases heh : action.error_handling with
  | none =>
    simp only [List.map_append, List.map_nil]
    exact congrArg₂ List.append
      (precondLoop_stripId gen gen' action p action.preconditions n n') rfl
  | some eh =>
    by_cases hdef : (!eh.defined) = true
    · cases cls with
      | none =>
        simp only [if_pos hdef, List.map_append, List.map_cons, List.map_nil]
        exact congrArg₂ List.append
          (precondLoop_stripId gen gen' action p action.preconditions n n') rfl
      | some cl =>
        by_cases hu : cl.action_type ≠ ActionType.UNKNOWN
        · simp only [if_pos hdef, if_pos hu, List.map_append, List.map_nil]
          exact congrArg₂ List.append
            (precondLoop_stripId gen gen' action p action.preconditions n n') rfl
        · simp only [if_pos hdef, if_neg hu, List.map_append, List.map_cons, List.map_nil]
          exact congrArg₂ List.append
            (precondLoop_stripId gen gen' action p action.preconditions n n') rfl
    · simp only [if_neg hdef, List.map_append, List.map_nil]
      exact congrArg₂ List.append
        (precondLoop_stripId gen gen' action p action.preconditions n n') rfl

theorem extractFromRequirement_stripId (gen gen' : Nat → String) (r : Requirement) (n n' : Nat) :
    ((extractFromRequirement gen r n).1).map stripId
      = ((extractFromRequirement gen' r n').1).map stripId := by
  unfold extractFromRequirement
  by_cases hq : (6 : ℚ) / 10 < r.ambiguity_score
  · simp only [if_pos hq]
    rfl
  · simp only [if_neg hq]

theorem runProducer_stripId {α : Type} (f f' : α → Nat → List UndefinedElement × Nat)
    (hf : ∀ x n n', ((f x n).1).map stripId = ((f' x n').1).map stripId) :
    ∀ (xs : List α) (n n' : Nat),
      ((runProducer f xs n).1).map stripId = ((runProducer f' xs n').1).map stripId
  | [], _, _ => rfl
  | x :: xs, n, n' => by
    show ((f x n).1 ++ (runProducer f xs (f x n).2).1).map stripId
        = ((f' x n').1 ++ (runProducer f' xs (f' x n').2).1).map stripId
    rw [List.map_append, List.map_append, hf x n n',
      runProducer_stripId f f' hf xs (f x n).2 (f' x n').2]

theorem extractFromChecklist_stripId (gen gen' : Nat → String)
    (templates : String → List ChecklistItem) (cl : ClassificationResult)
    (p : ParsedRequirement) (n n' : Nat) :
    ((extractFromChecklist gen templates cl p n).1).map stripId
      = ((extractFromChecklist gen' templates cl p n').1).map stripId := by
  unfold extractFromChecklist
  exact checklistLoop_stripId gen gen' _ _ p _ n n'

theorem extractElements_stripId (gen gen' : Nat → String)
    (templates : String → List ChecklistItem) (p : ParsedRequirement) (n n' : Nat) :
    ((extractElements gen templates p n).1).map stripId
      = ((extractElements gen' templates p n').1).map stripId := by
  unfold extractElements
  by_cases hu : (classify p.original_content).action_type ≠ ActionType.UNKNOWN
  · simp only [if_pos hu, List.map_append]
    refine congrArg₂ List.append (extractFromChecklist_stripId gen gen' templates _ p n n') ?_
    refine congrArg₂ List.append
      (runProducer_stripId _ _ (fun e m m' => extractFromEntity_stripId gen gen' e p m m')
        p.entities _ _) ?_
    exact congrArg₂ List.append
      (runProducer_stripId _ _
        (fun a m m' => extractFromAction_stripId gen gen' a p _ m m') p.actions _ _)
      (runProducer_stripId _ _
        (fun r m m' => extractFromRequirement_stripId gen gen' r m m') p.requirements _ _)
  · simp only [if_neg hu, List.map_append, List.map_nil]
    refine congrArg₂ List.append rfl ?_
    refine congrArg₂ List.append
      (runProducer_stripId _ _ (fun e m m' => extractFromEntity_stripId gen gen' e p m m')
        p.entities _ _) ?_
    exact congrArg₂ List.append
      (runProducer_stripId _ _
        (fun a m m' => extractFromAction_stripId gen gen' a p _ m m') p.actions _ _)
      (runProducer_stripId _ _
        (fun r m m' => extractFromRequirement_stripId gen gen' r m m') p.requirements _ _)

/-! ## Lemmas: the generic error-handling finding -/

/-- The category marking the generic missing-error-handling finding. -/
def isGenericEH (e : UndefinedElement) : Bool :=
  e.category == "エラーハンドリングの欠落"

theorem precondLoop_countEH (gen : Nat → String) (action : Action) (p : ParsedRequirement) :
    ∀ (cs : List Condition) (n : Nat),
      ((precondLoop gen action p cs n).1).countP isGenericEH = 0
  | [], _ => rfl
  | c :: cs, n => by
    by_cases hc : c.ambiguous = true
    · simp only [precondLoop, if_pos hc, List.countP_cons]
      rw [precondLoop_countEH gen action p cs (n + 1)]
      rfl
    · simp only [precondLoop, if_neg hc]
      exact precondLoop_countEH gen action p cs n

theorem extractFromAction_countEH_known (gen : Nat → String) (action : Action)
    (p : ParsedRequirement) (cl : ClassificationResult) (n : Nat)
    (h : cl.action_type ≠ ActionType.UNKNOWN) :
    ((extractFromAction gen action p (some cl) n).1).countP isGenericEH = 0 := by
  unfold extractFromAction
  cases heh : action.error_handling with
  | none =>
    rw [List.countP_append, precondLoop_countEH gen action p action.preconditions n]
    rfl
  | some eh =>
    by_cases hdef : (!eh.defined) = true
    · simp only [if_pos hdef, if_pos h]
      rw [List.countP_append, precondLoop_countEH gen action p action.preconditions n]
      rfl
    · simp only [if_neg hdef]
      rw [List.countP_append, precondLoop_countEH gen action p action.preconditions n]
      rfl

theorem extractFromAction_countEH_unknown (gen : Nat → String) (action : Action)
    (p : ParsedRequirement) (cl : ClassificationResult) (n : Nat)
    (h : cl.action_type = ActionType.UNKNOWN) (eh : ErrorHandling)
    (heh : action.error_handling = some eh) (hdef : eh.defined = false) :
    ((extractFromAction gen action p (some cl) n).1).countP isGenericEH = 1 := by
  unfold extractFromAction
  rw [heh]
  have hnd : (!eh.defined) = true := by simp [hdef]
  have hne : ¬(cl.action_type ≠ ActionType.UNKNOWN) := by simp [h]
  simp only [if_pos hnd, if_neg hne]
  rw [List.countP_append, precondLoop_countEH gen action p action.preconditions n]
  rfl

/-! ## Lemmas: detection provenance invariants -/

/-- Invariant of every finding's detection block: confidence within `[0,1]`
and a method label from the closed set. -/
def detectionOk (e : UndefinedElement) : Prop :=
  0 ≤ e.detection.confidence ∧ e.detection.confidence ≤ 1 ∧
    e.detection.method ∈ detectionMethods

theorem convert_detectionOk (gen : Nat → String) (item : ChecklistItem) (ats : String)
    (ctx : GenContext) (pq : PracticalQuestion) (p : ParsedRequirement) (n : Nat) :
    detectionOk (convertToUndefinedElement gen item (judge item ats (some ctx)) pq p n).1 := by
  rcases calculateScore_bounds item ats (some ctx) with ⟨hl, hu⟩
  refine ⟨?_, ?_, ?_⟩
  · show (0 : ℚ) ≤ (judge item ats (some ctx)).score / 10
    rw [judge_score]
    positivity
  · show (judge item ats (some ctx)).score / 10 ≤ 1
    rw [judge_score]
    rw [div_le_one (by norm_num)]
    exact hu
  · show ("template_driven" : String) ∈ detectionMethods
    simp [detectionMethods]

theorem checklistLoop_detectionOk (gen : Nat → String) (ctx : GenContext) (ats : String)
    (p : ParsedRequirement) :
    ∀ (items : List ChecklistItem) (n : Nat) (e : UndefinedElement),
      e ∈ (checklistLoop gen ctx ats p items n).1 → detectionOk e
  | [], _, e, he => by simp [checklistLoop] at he
  | item :: items, n, e, he => by
    have hshape : (checklistLoop gen ctx ats p (item :: items) n).1
        = (convertToUndefinedElement gen item (judge item ats (some ctx))
            (generate item (some ctx)) p n).1
          :: (checklistLoop gen ctx ats p items
              ((convertToUndefinedElement gen item (judge item ats (some ctx))
                (generate item (some ctx)) p n).2)).1 := rfl
    rw [hshape] at he
    rcases List.mem_cons.mp he with rfl | he
    · exact convert_detectionOk gen item ats ctx _ p n
    · exact checklistLoop_detectionOk gen ctx ats p items _ e he

theorem attrLoop_detectionOk (gen : Nat → String) (entity : Entity) (p : ParsedRequirement) :
    ∀ (attrs : List Attribute) (n : Nat) (e : UndefinedElement),
      e ∈ (attrLoop gen entity p attrs n).1 → detectionOk e
  | [], _, e, he => by simp [attrLoop] at he
  | attr :: attrs, n, e, he => by
    by_cases hc : (attr.mentioned && !attr.defined) = true
    · simp only [attrLoop, if_pos hc] at he
      rcases List.mem_cons.mp he with rfl | he
      · exact ⟨by norm_num, by norm_num, by simp [detectionMethods]⟩
      · exact attrLoop_detectionOk gen entity p attrs _ e he
    · simp only [attrLoop, if_neg hc] at he
      exact attrLoop_detectionOk gen entity p attrs n e he

theorem extractFromEntity_detectionOk (gen : Nat → String) (entity : Entity)
    (p : ParsedRequirement) (n : Nat) (e : UndefinedElement)
    (he : e ∈ (extractFromEntity gen entity p n).1) : detectionOk e := by
  unfold extractFromEntity at he
  by_cases hdef : (entity.definition_status == "undefined") = true
  · simp only [if_pos hdef] at he
    rcases List.mem_append.mp he with he | he
    · rcases List.mem_cons.mp he with rfl | he
      · exact ⟨by norm_num, by norm_num, by simp [detectionMethods]⟩
      · simp at he
    · exact attrLoop_detectionOk gen entity p entity.attributes _ e he
  · simp only [if_neg hdef] at he
    rcases List.mem_append.mp he with he | he
    · simp at he
    · exact attrLoop_detectionOk gen entity p entity.attributes _ e he

theorem precondLoop_detectionOk (gen : Nat → String) (action : Action) (p : ParsedRequirement) :
    ∀ (cs : List Condition) (n : Nat) (e : UndefinedElement),
      e ∈ (precondLoop gen action p cs n).1 → detectionOk e
  | [], _, e, he => by simp [precondLoop] at he
  | c :: cs, n, e, he => by
    by_cases hc : c.ambiguous = true
    · simp only [precondLoop, if_pos hc] at he
      rcases List.mem_cons.mp he with rfl | he
      · exact ⟨by norm_num, by norm_num, by simp [detectionMethods]⟩
      · exact precondLoop_detectionOk gen action p cs _ e he
    · simp only [precondLoop, if_neg hc] at he
      exact precondLoop_detectionOk gen action p cs n e he

theorem genericErrorElement_detectionOk (gen : Nat → String) (action : Action)
    (p : ParsedRequirement) (n : Nat) : detectionOk (genericErrorElement gen action p n) := by
  refine ⟨?_, ?_, ?_⟩
  · show (0 : ℚ) ≤ 8 / 10
    norm_num
  · show (8 : ℚ) / 10 ≤ 1
    norm_num
  · show ("rule_based" : String) ∈ detectionMethods
    simp [detectionMethods]

theorem extractFromAction_detectionOk (gen : Nat → String) (action : Action)
    (p : ParsedRequirement) (cls : Option ClassificationResult) (n : Nat)
    (e : UndefinedElement) (he : e ∈ (extractFromAction gen action p cls n).1) :
    detectionOk e := by
  unfold extractFromAction at he
  have hpre := precondLoop_detectionOk gen action p action.preconditions n e
  cases heh : action.error_handling with
  | none =>
    rw [heh] at he
    rcases List.mem_append.mp he with he | he
    · exact hpre he
    · simp at he
  | some eh =>
    rw [heh] at he
    by_cases hdef : (!eh.defined) = true
    · cases cls with
      | none =>
        simp only [if_pos hdef] at he
        rcases List.mem_append.mp he with he | he
        · exact hpre he
        · rcases List.mem_cons.mp he with rfl | he
          · exact genericErrorElement_detectionOk gen action p _
          · simp at he
      | some cl =>
        by_cases hu : cl.action_type ≠ ActionType.UNKNOWN
        · simp only [if_pos hdef, if_pos hu] at he
          rcases List.mem_append.mp he with he | he
          · exact hpre he
          · simp at he
        · simp only [if_pos hdef, if_neg hu] at he
          rcases List.mem_append.mp he with he | he
          · exact hpre he
          · rcases List.mem_cons.mp he with rfl | he
            · exact genericErrorElement_detectionOk gen action p _
            · simp at he
    · simp only [if_neg hdef] at he
      rcases List.mem_append.mp he with he | he
      · exact hpre he
      · simp at he

theorem extractFromRequirement_detectionOk (gen : Nat → String) (r : Requirement) (n : Nat)
    (e : UndefinedElement) (he : e ∈ (extractFromRequirement gen r n).1) : detectionOk e := by
  unfold extractFromRequirement at he
  by_cases hq : (6 : ℚ) / 10 < r.ambiguity_score
  · simp only [if_pos hq] at he
    rcases List.mem_cons.mp he with rfl | he
    · exact ⟨by norm_num, by norm_num, by simp [detectionMethods]⟩
    · simp at he
  · simp only [if_neg hq] at he
    simp at he

theorem runProducer_detectionOk {α : Type} (f : α → Nat → List UndefinedElement × Nat)
    (hf : ∀ x n e, e ∈ (f x n).1 → detectionOk e) :
    ∀ (xs : List α) (n : Nat) (e : UndefinedElement),
      e ∈ (runProducer f xs n).1 → detectionOk e
  | [], _, e, he => by simp [runProducer] at he
  | x :: xs, n, e, he => by
    rw [show (runProducer f (x :: xs) n).1
        = (f x n).1 ++ (runProducer f xs (f x n).2).1 from rfl] at he
    rcases List.mem_append.mp he with he | he
    · exact hf x n e he
    · exact runProducer_detectionOk f hf xs _ e he

theorem extractElements_detectionOk (gen : Nat → String)
    (templates : String → List ChecklistItem) (p : ParsedRequirement) (n : Nat)
    (e : UndefinedElement) (he : e ∈ (extractElements gen templates p n).1) :
    detectionOk e := by
  unfold extractElements at he
  have hent := runProducer_detectionOk _
    (fun x m e' he' => extractFromEntity_detectionOk gen x p m e' he') p.entities
  have hact := runProducer_detectionOk _
    (fun x m e' he' =>
      extractFromAction_detectionOk gen x p (some (classify p.original_content)) m e' he')
    p.actions
  have hreq := runProducer_detectionOk _
    (fun x m e' he' => extractFromRequirement_detectionOk gen x m e' he') p.requirements
  by_cases hu : (classify p.original_content).action_type ≠ ActionType.UNKNOWN
  · simp only [if_pos hu] at he
    rcases List.mem_append.mp he with he | he
    · exact checklistLoop_detectionOk gen _ _ p _ _ e he
    · rcases List.mem_append.mp he with he | he
      · exact hent _ e he
      · rcases List.mem_append.mp he with he | he
        · exact hact _ e he
        · exact hreq _ e he
  · simp only [if_neg hu] at he
    rcases List.mem_append.mp he with he | he
    · simp at he
    · rcases List.mem_append.mp he with he | he
      · exact hent _ e he
      · rcases List.mem_append.mp he with he | he
        · exact hact _ e he
        · exact hreq _ e he

/-! ## Lemmas: whitespace-only input degenerates to nothing -/

theorem stripChars_eq_nil {l : List Char} (h : ∀ c ∈ l, isSpaceChar c = true) :
    stripChars l = [] := by
  unfold stripChars
  rw [List.dropWhile_eq_nil_iff.mpr h]
  rfl

theorem splitOnChar_ne_nil (c : Char) : ∀ l : List Char, splitOnChar c l ≠ []
  | [] => by simp [splitOnChar]
  | a :: as => by
    unfold splitOnChar
    rcases hs : splitOnChar c as with _ | ⟨g, gs⟩
    · simp
    · by_cases hac : (a == c) = true <;> simp [hac]

theorem mem_of_mem_splitOnChar (c : Char) :
    ∀ (l g : List Char), g ∈ splitOnChar c l → ∀ d ∈ g, d ∈ l
  | [], g, hg => by
    simp only [splitOnChar, List.mem_singleton] at hg
    subst hg
    simp
  | a :: as, g, hg => by
    unfold splitOnChar at hg
    rcases hs : splitOnChar c as with _ | ⟨g', gs'⟩
    · exact absurd hs (splitOnChar_ne_nil c as)
    · rw [hs] at hg
      have hg : g ∈ (if (a == c) = true then [] :: g' :: gs' else (a :: g') :: gs') := hg
      by_cases hac : (a == c) = true
      · rw [if_pos hac] at hg
        rcases List.mem_cons.mp hg with rfl | hg
        · intro d hd
          simp at hd
        · intro d hd
          exact List.mem_cons_of_mem _
            (mem_of_mem_splitOnChar c as g (hs ▸ hg) d hd)
      · rw [if_neg hac] at hg
        rcases List.mem_cons.mp hg with rfl | hg
        · intro d hd
          rcases List.mem_cons.mp hd with rfl | hd
          · exact List.mem_cons_self _ _
          · have hmem : g' ∈ splitOnChar c as := by
              rw [hs]
              exact List.mem_cons_self _ _
            exact List.mem_cons_of_mem _ (mem_of_mem_splitOnChar c as g' hmem d hd)
        · have hmem : g ∈ splitOnChar c as := by
            rw [hs]
            exact List.mem_cons_of_mem _ hg
          intro d hd
          exact List.mem_cons_of_mem _ (mem_of_mem_splitOnChar c as g hmem d hd)

theorem buildSentences_nil :
    ∀ (rows : List (Nat × String)) (cp ct : Nat),
      (∀ pr ∈ rows, ∀ c ∈ pr.2.data, isSpaceChar c = true) →
      buildSentences rows cp ct = []
  | [], _, _, _ => rfl
  | (ln, line) :: rest, cp, ct, h => by
    have hline : ∀ c ∈ line.data, isSpaceChar c = true :=
      fun c hc => h (ln, line) (List.mem_cons_self _ _) c hc
    have hstrip : strip line = "" := by
      unfold strip
      rw [stripChars_eq_nil hline]
    simp only [buildSentences, hstrip]
    rw [if_pos (by simp)]
    exact buildSentences_nil rest _ _ (fun pr hpr => h pr (List.mem_cons_of_mem _ hpr))

theorem extractSentences_nil {content : String}
    (h : ∀ c ∈ content.data, isSpaceChar c = true) : extractSentences content = [] := by
  unfold extractSentences
  apply buildSentences_nil
  intro pr hpr c hc
  have h2 : pr.2 ∈ (splitOnChar '\n' content.data).map (fun l => (⟨l⟩ : String)) := by
    rw [← List.enumFrom_map_snd 1 ((splitOnChar '\n' content.data).map (fun l => (⟨l⟩ : String)))]
    exact List.mem_map_of_mem Prod.snd hpr
  rcases List.mem_map.mp h2 with ⟨l, hl, hpr2⟩
  rw [← hpr2] at hc
  exact h c (mem_of_mem_splitOnChar '\n' content.data l hl c hc)

theorem extractEntities_nil {content : String}
    (h : ∀ c ∈ content.data, isSpaceChar c = true) (sentences : List Sentence) :
    extractEntities content sentences = [] := by
  have hforall : ∀ noun ∈ commonNouns, noun.data.any (fun c => !isSpaceChar c) = true := by
    decide
  unfold extractEntities
  rw [show commonNouns.filter (fun noun => occursIn noun content) = [] from by
    rw [List.filter_eq_nil_iff]
    intro noun hn
    simp [occursIn_false_of_space h (hforall noun hn)]]
  rfl

/-- Parsing whitespace-only content yields no sentences, entities, actions or
requirements. -/
theorem parse_whitespace (docId content : String)
    (h : ∀ c ∈ content.data, isSpaceChar c = true) :
    (parse docId content).sentences = [] ∧ (parse docId content).entities = [] ∧
      (parse docId content).actions = [] ∧ (parse docId content).requirements = [] := by
  have hs := extractSentences_nil h
  unfold parse
  simp only [hs, extractEntities_nil h]
  exact ⟨by trivial, by trivial, by trivial, by trivial⟩

theorem scoredPatterns_ws {content : String}
    (h : ∀ c ∈ content.data, isSpaceChar c = true) : scoredPatterns content = [] := by
  have hkw : ∀ ap ∈ ACTION_PATTERNS, ∀ k ∈ ap.2.keywords,
      k.data.any (fun c => !isSpaceChar c) = true := by decide
  unfold scoredPatterns
  rw [List.filter_eq_nil_iff]
  intro ap hap
  have hv : votes ap.2 content = 0 := by
    unfold votes
    rw [List.filter_eq_nil_iff.mpr
      (fun k hk => by simp [occursIn_false_of_space h (hkw ap hap k hk)])]
    rfl
  simp [hv]

/-- Extraction on the parse of whitespace-only content yields no findings. -/
theorem extractElements_parse_ws (gen : Nat → String)
    (templates : String → List ChecklistItem) (docId content : String) (n : Nat)
    (h : ∀ c ∈ content.data, isSpaceChar c = true) :
    (extractElements gen templates (parse docId content) n).1 = [] := by
  have hcl : (classify (parse docId content).original_content).action_type
      = ActionType.UNKNOWN := by
    rw [show (parse docId content).original_content = content from rfl,
      classify_of_no_scores (scoredPatterns_ws h)]
  rcases parse_whitespace docId content h with ⟨_, hent, hact, hreq⟩
  simp only [extractElements]
  rw [if_neg (by simp [hcl])]
  rw [hent, hact, hreq]
  rfl

/-! ## Concrete sample inputs for witnesses and counterexamples -/

/-- A concrete id supply standing for the uuid stream: the n-th draw is the
decimal numeral of n, so distinct draws give distinct ids. -/
def sampleGen : Nat → String := fun n => Nat.repr n

/-- An empty template source: every category degrades to an empty checklist. -/
def emptyTemplates : String → List ChecklistItem := fun _ => []

/-- A parse result holding a single still-undefined entity and nothing else. -/
def sampleParsed : ParsedRequirement :=
  { document_id := "DOC-1", original_content := "",
    sentences := [],
    entities := [
      { id := "E-001", name := "ユーザー", type := "actor", attributes := [],
        mentions := [], definition_status := "undefined", ambiguity_score := 7 / 10 }],
    actions := [], requirements := [],
    statistics :=
      { total_sentences := 0, total_entities := 1, total_relationships := 0,
        total_actions := 0, avg_completeness_score := 0, avg_ambiguity_score := 0 } }

/-- An action with undefined error handling and no preconditions. -/
def sampleAction : Action :=
  { id := "A-001", verb := "処理", subject := "UNKNOWN", object := none,
    preconditions := [], error_handling := some { mentioned := false, defined := false } }

/-- A checklist item affecting data model, external system and security, with
no explicit criticality override. -/
def sampleItem : ChecklistItem :=
  { id := some "chk-1", title := some "削除方式", category := none, question := some "q",
    question_template := none, question_template_key := none, options := [], examples := [],
    criticality := none, why_critical := none, why_optional := none,
    change_cost_if_later := none, default_assumption := none, detection_phase := none,
    affects := { data_model := true, external_system := true, security := true } }

/-! ## Claims -/

/-- C1 (counterexample): invoking `extract` twice on the same
`ParsedRequirement` does not yield an identical finding list, because each
run draws fresh uuids for the finding ids — the second run continues the id
supply where the first stopped, so the single entity finding carries id "0"
in the first run and id "1" in the second. -/
theorem extract_twice_not_identical :
    (extractElements sampleGen emptyTemplates sampleParsed 0).1
      ≠ (extractElements sampleGen emptyTemplates sampleParsed
          ((extractElements sampleGen emptyTemplates sampleParsed 0).2)).1 := by
  intro heq
  have hids := congrArg (List.map (fun e => e.id)) heq
  have hne : ((extractElements sampleGen emptyTemplates sampleParsed 0).1).map
        (fun e => e.id)
      ≠ ((extractElements sampleGen emptyTemplates sampleParsed
          ((extractElements sampleGen emptyTemplates sampleParsed 0).2)).1).map
        (fun e => e.id) := by decide
  exact hne hids

/-- C1 (amended): two `extract` runs on the same `ParsedRequirement`, over
the same template source but arbitrary positions of the id supply, produce
finding lists of the same length and order that agree in every field except
the freshly drawn `id`. -/
theorem extract_stable_up_to_ids (gen gen' : Nat → String)
    (templates : String → List ChecklistItem) (p : ParsedRequirement) (n n' : Nat) :
    ((extractElements gen templates p n).1).map stripId
      = ((extractElements gen' templates p n').1).map stripId :=
  extractElements_stripId gen gen' templates p n n'

/-- C2: with the classification `extract` passes to the action producer,
a known (non-`UNKNOWN`) action type suppresses the generic
missing-error-handling finding for every action, while an `UNKNOWN` action
type makes every action with present-but-undefined error handling produce
exactly one such finding. -/
theorem action_generic_eh_suppression (gen : Nat → String) (p : ParsedRequirement)
    (a : Action) (n : Nat) :
    ((classify p.original_content).action_type ≠ ActionType.UNKNOWN →
      ((extractFromAction gen a p (some (classify p.original_content)) n).1).countP
        isGenericEH = 0) ∧
    ((classify p.original_content).action_type = ActionType.UNKNOWN →
      ∀ eh : ErrorHandling, a.error_handling = some eh → eh.defined = false →
        ((extractFromAction gen a p (some (classify p.original_content)) n).1).countP
          isGenericEH = 1) :=
  ⟨fun h => extractFromAction_countEH_known gen a p _ n h,
   fun h eh heh hdef => extractFromAction_countEH_unknown gen a p _ n h eh heh hdef⟩

/-- C2 (witness): on an empty document the classification is `UNKNOWN` and
the sample action with undefined error handling produces exactly one generic
finding. -/
theorem action_generic_eh_suppression_witness :
    ((extractFromAction sampleGen sampleAction sampleParsed
        (some (classify sampleParsed.original_content)) 0).1).countP isGenericEH = 1 :=
  (action_generic_eh_suppression sampleGen sampleParsed sampleAction 0).2 (by decide)
    { mentioned := false, defined := false } rfl rfl

/-- C3: every judge result has a score in `[0, 10]`, and a score of at least
5 forces the must-define tier unless the item carries an explicit
criticality override (`SHOULD_CONFIRM` or `CAN_DECIDE_LATER`) that forces a
different tier. -/
theorem judge_score_range_and_tier (e : ChecklistItem) (a : String) (c : Option GenContext) :
    0 ≤ (judge e a c).score ∧ (judge e a c).score ≤ 10 ∧
      (5 ≤ (judge e a c).score →
        (judge e a c).criticality = Criticality.MUST_DEFINE ∨
          e.criticality.getD "" = "SHOULD_CONFIRM" ∨
          e.criticality.getD "" = "CAN_DECIDE_LATER") := by
  rcases calculateScore_bounds e a c with ⟨hl, hu⟩
  refine ⟨le_trans (by norm_num) (judge_score e a c ▸ hl), judge_score e a c ▸ hu, ?_⟩
  intro h5
  rw [judge_criticality]
  simp only [determineCriticality]
  by_cases h1 : (e.criticality.getD "" == "MUST_DEFINE") = true
  · rw [if_pos h1]
    exact Or.inl rfl
  · rw [if_neg h1]
    by_cases h2 : (e.criticality.getD "" == "SHOULD_CONFIRM") = true
    · exact Or.inr (Or.inl (beq_iff_eq.mp h2))
    · rw [if_neg h2]
      by_cases h3 : (e.criticality.getD "" == "CAN_DECIDE_LATER") = true
      · exact Or.inr (Or.inr (beq_iff_eq.mp h3))
      · rw [if_neg h3, if_pos (judge_score e a c ▸ h5)]
        exact Or.inl rfl

/-- C3 (witness): the sample item affects data model, external system and
security, scoring at least `8.5 ≥ 5` with no override, hence must-define. -/
theorem judge_score_range_and_tier_witness :
    0 ≤ (judge sampleItem "DELETE" none).score ∧
      (judge sampleItem "DELETE" none).score ≤ 10 ∧
      ((judge sampleItem "DELETE" none).criticality = Criticality.MUST_DEFINE ∨
        sampleItem.criticality.getD "" = "SHOULD_CONFIRM" ∨
        sampleItem.criticality.getD "" = "CAN_DECIDE_LATER") := by
  have h5 : (5 : ℚ) ≤ (judge sampleItem "DELETE" none).score := by
    rw [judge_score]
    unfold calculateScore
    have ha : affectsScore sampleItem.affects = 8 := by
      show affectsScore { data_model := true, external_system := true, security := true } = 8
      unfold affectsScore
      norm_num
    rcases changeCostScore_bounds (sampleItem.change_cost_if_later.getD "") with ⟨hc, _⟩
    rcases phaseScore_bounds (sampleItem.detection_phase.getD "implementation") with ⟨hp, _⟩
    rcases overrideFloor_bounds (sampleItem.criticality.getD "")
      (affectsScore sampleItem.affects
        + changeCostScore (sampleItem.change_cost_if_later.getD "")
        + phaseScore (sampleItem.detection_phase.getD "implementation")) with ⟨hf, _⟩
    refine le_min (le_trans ?_ hf) (by norm_num)
    rw [ha] at hf ⊢
    linarith
  rcases judge_score_range_and_tier sampleItem "DELETE" none with ⟨h1, h2, h3⟩
  exact ⟨h1, h2, h3 h5⟩

/-- No keyword of any category occurs in the text. -/
def noKeywordHit (t : String) : Prop :=
  ∀ ap ∈ ACTION_PATTERNS, ∀ k ∈ ap.2.keywords, occursIn k t = false

/-- C4: the classifier's confidence is always `min(votes/3, 1)` for the
winning category's distinct-keyword vote count, and a text without any
category keyword classifies as `UNKNOWN` with confidence 0 and base severity
`LOW`. -/
theorem classify_confidence_formula (t : String) :
    (classify t).confidence = min ((votesFor (classify t).action_type t : ℚ) / 3) 1 ∧
      (noKeywordHit t →
        (classify t).action_type = ActionType.UNKNOWN ∧ (classify t).confidence = 0 ∧
          (classify t).base_severity = "LOW") := by
  constructor
  · rw [classify_conf, classify_votesFor]
  · intro hno
    have hnil : scoredPatterns t = [] := by
      unfold scoredPatterns
      rw [List.filter_eq_nil_iff]
      intro ap hap
      have hv : votes ap.2 t = 0 := by
        unfold votes
        rw [List.filter_eq_nil_iff.mpr (fun k hk => by simp [hno ap hap k hk])]
        rfl
      simp [hv]
    rw [classify_of_no_scores hnil]
    exact ⟨rfl, rfl, rfl⟩

/-- C4 (witness): the text "abc" contains no category keyword and classifies
as `UNKNOWN` with confidence 0 and severity `LOW`. -/
theorem classify_confidence_formula_witness :
    noKeywordHit "abc" ∧
      ((classify "abc").action_type = ActionType.UNKNOWN ∧
        (classify "abc").confidence = 0 ∧ (classify "abc").base_severity = "LOW") :=
  have hno : noKeywordHit "abc" := by
    unfold noKeywordHit
    decide
  ⟨hno, (classify_confidence_formula "abc").2 hno⟩

/-- C5: when some category has a keyword hit, the classifier picks a
category attaining the maximal distinct-keyword vote count, and on ties the
first entry in `ACTION_PATTERNS` declaration order wins. -/
theorem classify_picks_first_max (t : String)
    (hhit : ∃ ap ∈ ACTION_PATTERNS, 0 < votes ap.2 t) :
    votesFor (classify t).action_type t = maxVotes t ∧
      specFirstMax t = some (classify t).action_type := by
  rcases hhit with ⟨ap, hap, hv⟩
  have hne : scoredPatterns t ≠ [] := by
    intro h
    have hmem := scored_of_mem hap hv
    rw [h] at hmem
    simp at hmem
  cases hpb : pickBest t (scoredPatterns t) with
  | none => exact absurd (pickBest_eq_none.mp hpb) hne
  | some bp =>
    rcases pickBest_first_max hpb with ⟨hmem, hmax, hfind⟩
    have hat : (classify t).action_type = bp.1 := by rw [classify_of_pick hpb]
    constructor
    · rw [hat, votesFor_of_mem hmem, hmax]
    · unfold specFirstMax
      rw [hfind, hat]
      rfl

/-- C5 (witness): "削除して作成" gives one DELETE hit and one CREATE hit — a
tie which the first-declared DELETE wins, attaining the maximal count. -/
theorem classify_picks_first_max_witness :
    votesFor (classify "削除して作成").action_type "削除して作成" = maxVotes "削除して作成" ∧
      specFirstMax "削除して作成" = some ((classify "削除して作成").action_type) :=
  classify_picks_first_max "削除して作成" (by decide)

/-- C6 (counterexample): inserting an additional occurrence of the DELETE
keyword 消去 into クリア消去 at position 1 splits the existing occurrence of
the keyword クリア, and DELETE's distinct-keyword vote count drops from 2 to
1 — insertion at an arbitrary position can decrease the vote count. -/
theorem insert_keyword_decreases_votes :
    ¬(votesFor ActionType.DELETE "クリア消去"
        ≤ votesFor ActionType.DELETE (insertAt "クリア消去" "消去" 1)) := by
  decide

/-- The keyword set of a category in `ACTION_PATTERNS`. -/
def keywordsOf (a : ActionType) : List String :=
  match ACTION_PATTERNS.find? (fun ap => decide (ap.1 = a)) with
  | some ap => ap.2.keywords
  | none => []

/-- C6 (amended): appending an additional occurrence of a category keyword
(insertion at the end of the text, which leaves existing occurrences intact)
never decreases that category's vote count, and never decreases the
confidence when that category wins on the extended text. -/
theorem append_keyword_monotone (t k : String) (a : ActionType)
    (hk : k ∈ keywordsOf a) :
    votesFor a t ≤ votesFor a (t ++ k) ∧
      ((classify (t ++ k)).action_type = a →
        (classify t).confidence ≤ (classify (t ++ k)).confidence) := by
  refine ⟨votesFor_mono a t k, fun _ => ?_⟩
  rw [classify_conf, classify_conf]
  have hcast : (maxVotes t : ℚ) ≤ (maxVotes (t ++ k) : ℚ) := by
    exact_mod_cast maxVotes_mono t k
  exact min_le_min (by linarith) (le_refl 1)

/-- C6 (witness): appending 削除 to ユーザーを makes DELETE win and the
confidence not decrease. -/
theorem append_keyword_monotone_witness :
    "削除" ∈ keywordsOf ActionType.DELETE ∧
      votesFor ActionType.DELETE "ユーザーを"
        ≤ votesFor ActionType.DELETE ("ユーザーを" ++ "削除") ∧
      (classify "ユーザーを").confidence ≤ (classify ("ユーザーを" ++ "削除")).confidence := by
  have h := append_keyword_monotone "ユーザーを" "削除" ActionType.DELETE (by decide)
  exact ⟨by decide, h.1, h.2 (by decide)⟩

/-- C7: every finding produced by `extract` — whichever of the four
producers emitted it — carries a detection confidence in `[0, 1]` and a
method label from the closed set of `schema.DetectionInfo`. -/
theorem extract_detection_invariant (gen : Nat → String)
    (templates : String → List ChecklistItem) (p : ParsedRequirement) (n : Nat)
    (e : UndefinedElement) (he : e ∈ (extractElements gen templates p n).1) :
    0 ≤ e.detection.confidence ∧ e.detection.confidence ≤ 1 ∧
      e.detection.method ∈ detectionMethods :=
  extractElements_detectionOk gen templates p n e he

/-- C7 (witness): the first finding of the sample extraction run satisfies
the detection invariant. -/
theorem extract_detection_invariant_witness :
    0 ≤ (((extractElements sampleGen emptyTemplates sampleParsed 0).1).get
        ⟨0, by decide⟩).detection.confidence ∧
      (((extractElements sampleGen emptyTemplates sampleParsed 0).1).get
        ⟨0, by decide⟩).detection.confidence ≤ 1 ∧
      (((extractElements sampleGen emptyTemplates sampleParsed 0).1).get
        ⟨0, by decide⟩).detection.method ∈ detectionMethods :=
  extract_detection_invariant sampleGen emptyTemplates sampleParsed 0 _
    (List.get_mem _ 0 (by decide))

/-- C8 (counterexample): a document consisting of a single comment line is
not degenerate for the core — the entity scan runs over the raw content, so
`# ユーザー` yields entities and extract yields findings, contradicting the
claim's inclusion of comment lines in the degenerate case. -/
theorem comment_line_yields_entities :
    (parse "DOC" "# ユーザー").entities ≠ [] ∧
      (extractElements sampleGen emptyTemplates (parse "DOC" "# ユーザー") 0).1 ≠ [] := by
  constructor <;> decide

/-- C8 (amended): for empty or whitespace-only content, parse returns zero
sentences, entities, actions and requirements, and extract on that parse
result returns zero findings (both are total functions — no error). -/
theorem whitespace_input_degenerates (docId content : String)
    (h : ∀ c ∈ content.data, isSpaceChar c = true) (gen : Nat → String)
    (templates : String → List ChecklistItem) (n : Nat) :
    (parse docId content).sentences = [] ∧ (parse docId content).entities = [] ∧
      (parse docId content).actions = [] ∧ (parse docId content).requirements = [] ∧
      (extractElements gen templates (parse docId content) n).1 = [] := by
  rcases parse_whitespace docId content h with ⟨h1, h2, h3, h4⟩
  exact ⟨h1, h2, h3, h4, extractElements_parse_ws gen templates docId content n h⟩

/-- C8 (witness): a blank-and-tab document parses to nothing and extracts to
nothing. -/
theorem whitespace_input_degenerates_witness :
    (∀ c ∈ (" \n\t " : String).data, isSpaceChar c = true) ∧
      ((parse "DOC" " \n\t ").sentences = [] ∧ (parse "DOC" " \n\t ").entities = [] ∧
        (parse "DOC" " \n\t ").actions = [] ∧ (parse "DOC" " \n\t ").requirements = [] ∧
        (extractElements sampleGen emptyTemplates (parse "DOC" " \n\t ") 0).1 = []) :=
  ⟨by decide, whitespace_input_degenerates "DOC" " \n\t " (by decide) sampleGen emptyTemplates 0⟩

/-- C9: the judge's score is always at least 0.5, because the change-cost
block always contributes its fallback 0.5, the other blocks are nonnegative,
the override floors only raise the score and the clip at 10 keeps it — a
score of exactly 0 is unreachable. -/
theorem judge_score_at_least_half (e : ChecklistItem) (a : String) (c : Option GenContext) :
    1 / 2 ≤ (judge e a c).score := by
  rw [judge_score]
  exact (calculateScore_bounds e a c).1

/-- C10: the completeness score is at most 0.9 — the four bonuses sum to
0.9, so the clip at 1.0 never engages and a score of 1.0 is unreachable. -/
theorem completeness_at_most_nine_tenths (text : String) (entities : List Entity)
    (actions : List Action) :
    calculateCompleteness text entities actions ≤ 9 / 10 := by
  unfold calculateCompleteness
  refine le_trans (min_le_left _ _) ?_
  split_ifs <;> norm_num

end Usd
